import Mathlib

/-!
Shallow embedding of the particle-system core of `threejs-particle-system`
(growable typed buffers, shader attributes with dirty-range bookkeeping,
emitters and emitter groups), together with theorems settling the frozen
claims about the natural-language specification.

Modelling conventions:
* JavaScript numbers are modelled as rationals (`ℚ`); the claims under
  study are structural (buffer layout, lengths, flags, counters) or use
  arithmetic that is exact over `ℚ`.
* A JS `Float32Array` is a `List ℚ`; an out-of-bounds or fractional-index
  write is silently dropped and such a read yields `none`, matching typed
  array semantics.
* `Infinity` / `-Infinity` (used by the per-emitter dirty ranges) are
  modelled by the three-valued type `XQ`.
* Platform math functions (`Math.sqrt`, `Math.cos`, `Math.sin`) belong to
  the host environment; they are supplied by a `MathFns` record so that
  every definition stays executable.
* The Mersenne-Twister source file is not part of the sources provided;
  its contract is modelled from the spec (see `Rng`).
* `three.js` scene-graph state (materials, geometries, GPU buffer
  attribute objects) is an external collaborator per the spec's scope;
  only the flags the core toggles on it are retained.
-/

namespace PS

/-- Extended rationals: JS numbers together with `Infinity` and
`-Infinity`, as used by the per-emitter buffer update ranges. -/
inductive XQ where
  | negInf : XQ
  | fin (q : ℚ) : XQ
  | posInf : XQ
deriving DecidableEq, Repr

namespace XQ

/-- JS `Math.min` on extended rationals. -/
def min : XQ → XQ → XQ
  | negInf, _ => negInf
  | _, negInf => negInf
  | posInf, y => y
  | x, posInf => x
  | fin a, fin b => fin (Min.min a b)

/-- JS `Math.max` on extended rationals. -/
def max : XQ → XQ → XQ
  | posInf, _ => posInf
  | _, posInf => posInf
  | negInf, y => y
  | x, negInf => x
  | fin a, fin b => fin (Max.max a b)

/-- Multiplication by a positive natural constant (an attribute's item
size); infinities are preserved, matching JS `Infinity * k`. -/
def scale : XQ → ℕ → XQ
  | fin q, k => fin (q * k)
  | posInf, _ => posInf
  | negInf, _ => negInf

/-- Order on extended rationals. -/
def le : XQ → XQ → Prop
  | negInf, _ => True
  | _, posInf => True
  | fin a, fin b => a ≤ b
  | posInf, fin _ => False
  | posInf, negInf => False
  | fin _, negInf => False

/-- Boolean version of `XQ.le`. -/
def leb : XQ → XQ → Bool
  | negInf, _ => true
  | _, posInf => true
  | fin a, fin b => decide (a ≤ b)
  | posInf, fin _ => false
  | posInf, negInf => false
  | fin _, negInf => false

instance (a b : XQ) : Decidable (le a b) :=
  decidable_of_iff (leb a b = true) (by cases a <;> cases b <;> simp [le, leb])

end XQ

/-- Write `v` at position `i` of a JS typed array: dropped silently when
`i` is fractional, negative or out of bounds. -/
def jsWrite (a : List ℚ) (i : ℚ) (v : ℚ) : List ℚ :=
  if i.den = 1 ∧ 0 ≤ i.num ∧ i.num.toNat < a.length then a.set i.num.toNat v else a

/-- Read position `i` of a JS typed array: `none` (JS `undefined`) when
`i` is fractional, negative or out of bounds. -/
def jsRead (a : List ℚ) (i : ℚ) : Option ℚ :=
  if i.den = 1 ∧ 0 ≤ i.num then a.get? i.num.toNat else none

/-- JS `Math.floor` on rationals (floor division of the numerator). -/
def qfloor (q : ℚ) : ℤ :=
  q.num.fdiv q.den

/-- JS `Math.ceil` on rationals. -/
def qceil (q : ℚ) : ℤ :=
  -qfloor (-q)

/-- Number of iterations of a JS loop `for (let x = a; x < b; x += 1)`. -/
def jsForCount (a b : ℚ) : ℕ :=
  if a < b then (qceil (b - a)).toNat else 0

/-- JS `x | 0` (ToInt32 for small values): truncation toward zero. -/
def jsTrunc (q : ℚ) : ℤ :=
  q.num.tdiv q.den

/-- JS truthiness of a number: `0` is falsy, everything else truthy
(`NaN` does not arise in the fragments modelled). -/
def truthy (q : ℚ) : Bool :=
  q ≠ 0

/-- Platform math functions (`Math.sqrt` / `Math.cos` / `Math.sin`),
supplied by the host environment; the core treats them as opaque
real-valued routines, so they are parameters of the embedding. -/
structure MathFns where
  sqrt : ℚ → ℚ
  cos : ℚ → ℚ
  sin : ℚ → ℚ
deriving Inhabited

/-- A trivial instance of the platform math functions, used to evaluate
scenarios that never reach the sphere / disc trigonometry. -/
def mathFns0 : MathFns := ⟨fun _ => 0, fun _ => 0, fun _ => 0⟩

/-- THREE.Vector3 restricted to the operations the core uses. -/
structure V3 where
  x : ℚ
  y : ℚ
  z : ℚ
deriving DecidableEq, Repr

namespace V3

def zero : V3 := ⟨0, 0, 0⟩

/-- THREE.Vector3.normalize: divide by `length() || 1`. -/
def normalize (M : MathFns) (v : V3) : V3 :=
  let l := M.sqrt (v.x * v.x + v.y * v.y + v.z * v.z)
  let l := if l = 0 then 1 else l
  ⟨v.x / l, v.y / l, v.z / l⟩

def add (v w : V3) : V3 := ⟨v.x + w.x, v.y + w.y, v.z + w.z⟩

def smul (q : ℚ) (v : V3) : V3 := ⟨q * v.x, q * v.y, q * v.z⟩

end V3

/-- THREE.Color restricted to the operations the core uses. -/
structure JsColor where
  r : ℚ
  g : ℚ
  b : ℚ
deriving DecidableEq, Repr

/-- Clamp a number to between the given min and max values
(`utils.clamp`). -/
def clamp (value min' max' : ℚ) : ℚ :=
  Max.max min' (Min.min value max')

/-- Linear interpolation (`utils.lerp`). -/
def lerp (start finish delta : ℚ) : ℚ :=
  start + (finish - start) * delta

/-- JS `Math.round`: half-way cases round toward `+∞`. -/
def jsRound (q : ℚ) : ℤ :=
  qfloor (q + 1/2)

/-- THREE.Color.getHex (no color-space conversion, as invoked with an
empty color-space argument): pack the clamped RGB channels into a single
integer. External `three.js` routine, modelled by its documented
packing. -/
def JsColor.getHex (c : JsColor) : ℚ :=
  ((jsRound (clamp c.r 0 1 * 255)) * 65536 +
    (jsRound (clamp c.g 0 1 * 255)) * 256 +
    (jsRound (clamp c.b 0 1 * 255)) : ℤ)

/-- Modelled from the spec: the repository's MersenneTwister source file
is not among the provided sources; the spec requires a seedable
deterministic generator whose `random()` yields floats in `[0,1)` with
identical seed + identical call sequence giving the identical output
sequence.  Any deterministic stream with that contract is a faithful
model; a small linear-congruential stream over `ℚ` is used. -/
structure Rng where
  state : ℕ
deriving DecidableEq, Repr

namespace Rng

/-- Seed the generator (MersenneTwister.init_seed). -/
def seed (n : ℕ) : Rng := ⟨n % 64⟩

/-- Draw the next float in `[0,1)` and the successor state
(MersenneTwister.random). -/
def random (r : Rng) : ℚ × Rng :=
  (((r.state % 8 : ℕ) : ℚ) / 8, ⟨(r.state * 5 + 1) % 64⟩)

end Rng

/-- A helper class for Float32Array (`Float32ArrayHelper`).  `size` keeps
the source's unit discipline: the constructor stores an element count,
while `grow`/`shrink` store the raw component length. -/
structure Float32ArrayHelper where
  itemSize : ℕ
  size : ℕ
  array : List ℚ
deriving DecidableEq, Repr

namespace Float32ArrayHelper

/-- Constructor: a zero-filled backing array of `size * itemSize`
components. -/
def mk' (size itemSize : ℕ) : Float32ArrayHelper :=
  ⟨itemSize, size, List.replicate (size * itemSize) 0⟩

/-- Shrinks the internal array (`this.array.subarray(0, size)`). -/
def shrink (h : Float32ArrayHelper) (size : ℕ) : Float32ArrayHelper :=
  { h with array := h.array.take size, size := size }

/-- Grows the internal array: a fresh zero array of the new length with
the existing contents copied to the front. -/
def grow (h : Float32ArrayHelper) (size : ℕ) : Float32ArrayHelper :=
  { h with array := h.array ++ List.replicate (size - h.array.length) 0, size := size }

/-- Sets the size (in elements) of the internal array, delegating to
`shrink` or `grow`; a no-op with an informational diagnostic when the
raw length is unchanged. -/
def setSize (h : Float32ArrayHelper) (size : ℕ) : Float32ArrayHelper × Bool :=
  let raw := size * h.itemSize
  if raw < h.array.length then (h.shrink raw, false)
  else if raw > h.array.length then (h.grow raw, false)
  else (h, true)

/-- Copies `data` into the array starting at component `index`, resizing
so the array ends exactly at the copied data (`_setFromArray`). -/
def setFromArray (h : Float32ArrayHelper) (index : ℕ) (data : List ℚ) : Float32ArrayHelper :=
  let newSize := index + data.length
  let h :=
    if newSize > h.array.length then h.grow newSize
    else if newSize < h.array.length then h.shrink newSize
    else h
  { h with array := h.array.take index ++ data ++ h.array.drop (index + data.length) }

/-- Splice: keep every component whose index is below `start * itemSize`
or at/after `finish * itemSize`, then write the survivors back from
position 0. -/
def splice (h : Float32ArrayHelper) (start finish : ℕ) : Float32ArrayHelper :=
  let s := start * h.itemSize
  let e := finish * h.itemSize
  let data := ((List.range h.array.length).filter fun i => i < s ∨ e ≤ i).filterMap h.array.get?
  h.setFromArray 0 data

/-- Set a Vector3 value using raw components; the element index may be
fractional (JS), in which case each component write is dropped. -/
def setVec3Components (h : Float32ArrayHelper) (index x y z : ℚ) : Float32ArrayHelper :=
  let i := index * h.itemSize
  { h with array := jsWrite (jsWrite (jsWrite h.array i x) (i + 1) y) (i + 2) z }

/-- Set a Vector4 value using raw components. -/
def setVec4Components (h : Float32ArrayHelper) (index x y z w : ℚ) : Float32ArrayHelper :=
  let i := index * h.itemSize
  { h with array :=
      jsWrite (jsWrite (jsWrite (jsWrite h.array i x) (i + 1) y) (i + 2) z) (i + 3) w }

end Float32ArrayHelper

/-- The fixed attribute-name set of an emitter group's buffers. -/
inductive AttrKey where
  | position | acceleration | velocity | orbit | orbitCenter
  | params | size | angle | color | opacity | rotation
deriving DecidableEq, Repr

/-- The group's attribute keys in source (insertion) order. -/
def attributeKeys : List AttrKey :=
  [.position, .acceleration, .velocity, .orbit, .orbitCenter,
   .params, .size, .angle, .color, .opacity, .rotation]

/-- Item size (components per element) of each attribute, from the
group constructor. -/
def AttrKey.itemSize : AttrKey → ℕ
  | .position => 3
  | .acceleration => 4
  | .velocity => 3
  | .orbit => 4
  | .orbitCenter => 3
  | .params => 4
  | .size => 4
  | .angle => 4
  | .color => 4
  | .opacity => 4
  | .rotation => 3

/-- A helper handling a buffer attribute (`ShaderAttribute`): the typed
array plus the running component-scaled dirty range.  The GPU-side
`THREE.InstancedBufferAttribute` is an external collaborator; only the
flags the core drives on it are retained. -/
structure ShaderAttribute where
  itemSize : ℕ
  typedArray : Option Float32ArrayHelper
  dynamicBuffer : Bool
  updateMin : XQ
  updateMax : XQ
  hasBufferAttribute : Bool
  bufferNeedsUpdate : Bool
  bufferUsageDynamic : Bool
deriving DecidableEq, Repr

namespace ShaderAttribute

/-- Constructor. -/
def mk' (itemSize : ℕ) : ShaderAttribute :=
  ⟨itemSize, none, true, .fin 0, .fin 0, false, false, false⟩

/-- Widen the running update range: note the source multiplies both the
incoming bounds and the stored bounds by the item size. -/
def setUpdateRange (a : ShaderAttribute) (min' max' : XQ) : ShaderAttribute :=
  { a with
    updateMin := XQ.min (min'.scale a.itemSize) (a.updateMin.scale a.itemSize)
    updateMax := XQ.max (max'.scale a.itemSize) (a.updateMax.scale a.itemSize) }

/-- Reset the index update counts for this attribute. -/
def resetUpdateRange (a : ShaderAttribute) : ShaderAttribute :=
  { a with updateMin := .fin 0, updateMax := .fin 0 }

/-- Push the computed range at the GPU buffer attribute (external side:
only the needs-update flag is retained). -/
def flagUpdate (a : ShaderAttribute) : ShaderAttribute :=
  if a.hasBufferAttribute then { a with bufferNeedsUpdate := true } else a

/-- Restore the buffer usage hint after a forced full upload. -/
def resetDynamic (a : ShaderAttribute) : ShaderAttribute :=
  if a.hasBufferAttribute then { a with bufferUsageDynamic := a.dynamicBuffer } else a

/-- Mark the whole backing array as needing an upload. -/
def forceUpdateAll (a : ShaderAttribute) : ShaderAttribute :=
  if a.hasBufferAttribute then
    { a with bufferUsageDynamic := false, bufferNeedsUpdate := true }
  else a

/-- Splice the typed array and force a full upload. -/
def splice (a : ShaderAttribute) (start finish : ℕ) : ShaderAttribute :=
  let a := match a.typedArray with
    | some h => { a with typedArray := some (h.splice start finish) }
    | none => a
  a.forceUpdateAll

/-- Make sure this attribute has a typed array of the requested element
size (`_ensureFloat32ArrayWithSizeExists`): note the source compares the
stored `size` both against `size * itemSize` and against `size`. -/
def ensureFloat32ArrayWithSizeExists (a : ShaderAttribute) (size : ℕ) : ShaderAttribute :=
  match a.typedArray with
  | some h =>
    if h.size = size * a.itemSize then a
    else if h.size ≠ size then { a with typedArray := some (h.setSize size).1 }
    else a
  | none => { a with typedArray := some (Float32ArrayHelper.mk' size a.itemSize) }

/-- Create (or refresh) the GPU buffer attribute for this attribute's
typed array. -/
def createBufferAttribute (a : ShaderAttribute) (size : ℕ) : ShaderAttribute :=
  let a := a.ensureFloat32ArrayWithSizeExists size
  if a.hasBufferAttribute then { a with bufferNeedsUpdate := true }
  else { a with hasBufferAttribute := true, bufferUsageDynamic := a.dynamicBuffer }

/-- Length of the typed array (0 when absent). -/
def getLength (a : ShaderAttribute) : ℕ :=
  match a.typedArray with
  | none => 0
  | some h => h.array.length

/-- The raw component list of the typed array (empty when absent). -/
def rawArray (a : ShaderAttribute) : List ℚ :=
  match a.typedArray with
  | none => []
  | some h => h.array

/-- Replace the raw component list of the typed array (no-op when
absent). -/
def withRawArray (a : ShaderAttribute) (l : List ℚ) : ShaderAttribute :=
  match a.typedArray with
  | none => a
  | some h => { a with typedArray := some { h with array := l } }

end ShaderAttribute

/-- The group's map of shader attributes. -/
structure Attributes where
  position : ShaderAttribute
  acceleration : ShaderAttribute
  velocity : ShaderAttribute
  orbit : ShaderAttribute
  orbitCenter : ShaderAttribute
  params : ShaderAttribute
  size : ShaderAttribute
  angle : ShaderAttribute
  color : ShaderAttribute
  opacity : ShaderAttribute
  rotation : ShaderAttribute
deriving DecidableEq, Repr

namespace Attributes

/-- The attributes map as built by the group constructor. -/
def init : Attributes :=
  ⟨.mk' 3, .mk' 4, .mk' 3, .mk' 4, .mk' 3, .mk' 4, .mk' 4, .mk' 4, .mk' 4, .mk' 4, .mk' 3⟩

/-- Look up an attribute by key. -/
def get (A : Attributes) : AttrKey → ShaderAttribute
  | .position => A.position
  | .acceleration => A.acceleration
  | .velocity => A.velocity
  | .orbit => A.orbit
  | .orbitCenter => A.orbitCenter
  | .params => A.params
  | .size => A.size
  | .angle => A.angle
  | .color => A.color
  | .opacity => A.opacity
  | .rotation => A.rotation

/-- Replace an attribute by key. -/
def set (A : Attributes) : AttrKey → ShaderAttribute → Attributes
  | .position, a => { A with position := a }
  | .acceleration, a => { A with acceleration := a }
  | .velocity, a => { A with velocity := a }
  | .orbit, a => { A with orbit := a }
  | .orbitCenter, a => { A with orbitCenter := a }
  | .params, a => { A with params := a }
  | .size, a => { A with size := a }
  | .angle, a => { A with angle := a }
  | .color, a => { A with color := a }
  | .opacity, a => { A with opacity := a }
  | .rotation, a => { A with rotation := a }

/-- Apply an update to the attribute at a key. -/
def modify (A : Attributes) (k : AttrKey) (f : ShaderAttribute → ShaderAttribute) : Attributes :=
  A.set k (f (A.get k))

end Attributes

namespace ShaderAttribute

/-- `attribute.typedArray?.setVec3Components(...)`: write through the
optional typed array. -/
def tySetVec3 (a : ShaderAttribute) (index x y z : ℚ) : ShaderAttribute :=
  match a.typedArray with
  | none => a
  | some h => { a with typedArray := some (h.setVec3Components index x y z) }

/-- `attribute.typedArray?.setVec4Components(...)`. -/
def tySetVec4 (a : ShaderAttribute) (index x y z w : ℚ) : ShaderAttribute :=
  match a.typedArray with
  | none => a
  | some h => { a with typedArray := some (h.setVec4Components index x y z w) }

/-- A direct raw-component store `attribute.typedArray.array[i] = v`. -/
def tyWriteRaw (a : ShaderAttribute) (i v : ℚ) : ShaderAttribute :=
  match a.typedArray with
  | none => a
  | some h => { a with typedArray := some { h with array := jsWrite h.array i v } }

end ShaderAttribute

/-- JS `%` (remainder with the dividend's sign, via truncated division). -/
def jsMod (a b : ℚ) : ℚ :=
  a - b * (jsTrunc (a / b) : ℚ)

namespace utils

/-- `utils.randomFloat`: `base + spread * (random() - 0.5)`. -/
def randomFloat (rng : Rng) (base spread : ℚ) : ℚ × Rng :=
  let (r, rng) := rng.random
  (base + spread * (r - 1/2), rng)

/-- `utils.roundToNearestMultiple`. -/
def roundToNearestMultiple (n multiple : ℚ) : ℚ :=
  if multiple = 0 then n
  else
    let remainder := jsMod |n| multiple
    if remainder = 0 then n
    else if n < 0 then -(|n| - remainder)
    else n + multiple - remainder

/-- `utils.arrayValuesAreEqual` (strict equality of adjacent items). -/
def arrayValuesAreEqual : List ℚ → Bool
  | [] => true
  | [_] => true
  | a :: b :: rest => decide (a = b) && arrayValuesAreEqual (b :: rest)

/-- `utils.randomVector3`: a box sample written in `vec3` format; the
clamp vector is absent exactly when the caller omits the argument. -/
def randomVector3 (rng : Rng) (attr : ShaderAttribute) (index : ℚ) (base spread : V3)
    (spreadClamp : Option V3) : ShaderAttribute × Rng :=
  let (r1, rng) := rng.random
  let (r2, rng) := rng.random
  let (r3, rng) := rng.random
  let x := base.x + (r1 * spread.x - spread.x * (1/2))
  let y := base.y + (r2 * spread.y - spread.y * (1/2))
  let z := base.z + (r3 * spread.z - spread.z * (1/2))
  let (x, y, z) :=
    match spreadClamp with
    | some c =>
      (-c.x * (1/2) + roundToNearestMultiple x c.x,
       -c.y * (1/2) + roundToNearestMultiple y c.y,
       -c.z * (1/2) + roundToNearestMultiple z c.z)
    | none => (x, y, z)
  (attr.tySetVec3 index x y z, rng)

/-- `utils.randomColorAsHex`: per-keyframe RGB perturbation clamped to
`[0,1]` per channel and packed as a hex value in decimal form.  After
value-over-lifetime compliance the keyframe lists have four entries; the
default `0` for missing entries is unreachable then. -/
def randomColorAsHex (rng : Rng) (attr : ShaderAttribute) (index : ℚ)
    (base : List JsColor) (spread : List V3) : ShaderAttribute × Rng :=
  let step := fun (st : List ℚ × Rng) (i : ℕ) =>
    let (colors, rng) := st
    let c := base.getD i ⟨0, 0, 0⟩
    let sv := (spread.getD i V3.zero)
    let (r1, rng) := rng.random
    let (r2, rng) := rng.random
    let (r3, rng) := rng.random
    let w : JsColor :=
      ⟨clamp (c.r + (r1 * sv.x - sv.x * (1/2))) 0 1,
       clamp (c.g + (r2 * sv.y - sv.y * (1/2))) 0 1,
       clamp (c.b + (r3 * sv.z - sv.z * (1/2))) 0 1⟩
    (colors ++ [w.getHex], rng)
  let (colors, rng) := (List.range base.length).foldl step ([], rng)
  (attr.tySetVec4 index (colors.getD 0 0) (colors.getD 1 0) (colors.getD 2 0) (colors.getD 3 0),
    rng)

/-- `utils.randomVector3OnLine`: lerp between the start and end points. -/
def randomVector3OnLine (rng : Rng) (attr : ShaderAttribute) (index : ℚ)
    (start finish : V3) : ShaderAttribute × Rng :=
  let (r, rng) := rng.random
  (attr.tySetVec3 index (lerp start.x finish.x r) (lerp start.y finish.y r)
    (lerp start.z finish.z r), rng)

/-- `utils.randomVector3OnSphere`. -/
def randomVector3OnSphere (M : MathFns) (rng : Rng) (attr : ShaderAttribute) (index : ℚ)
    (base : V3) (radius radiusSpread : ℚ) (radiusScale : V3) (radiusSpreadClamp : ℚ) :
    ShaderAttribute × Rng :=
  let (r1, rng) := rng.random
  let depth := 2 * r1 - 1
  let (r2, rng) := rng.random
  let t := (62832 / 10000 : ℚ) * r2
  let r := M.sqrt (1 - depth * depth)
  let (rand, rng) := randomFloat rng radius radiusSpread
  let rand := if truthy radiusSpreadClamp then
      (jsRound (rand / radiusSpreadClamp) : ℚ) * radiusSpreadClamp
    else rand
  let x := r * M.cos t * rand * radiusScale.x + base.x
  let y := r * M.sin t * rand * radiusScale.y + base.y
  let z := depth * rand * radiusScale.z + base.z
  (attr.tySetVec3 index x y z, rng)

/-- `utils.randomVector3OnDisc` (2D analogue; the z radius scale is
ignored). -/
def randomVector3OnDisc (M : MathFns) (rng : Rng) (attr : ShaderAttribute) (index : ℚ)
    (base : V3) (radius radiusSpread : ℚ) (radiusScale : V3) (radiusSpreadClamp : ℚ) :
    ShaderAttribute × Rng :=
  let (r1, rng) := rng.random
  let t := (62832 / 10000 : ℚ) * r1
  let (rand0, rng) := randomFloat rng radius radiusSpread
  let rand := |rand0|
  let rand := if truthy radiusSpreadClamp then
      (jsRound (rand / radiusSpreadClamp) : ℚ) * radiusSpreadClamp
    else rand
  let x := M.cos t * rand * radiusScale.x + base.x
  let y := M.sin t * rand * radiusScale.y + base.y
  let z := base.z
  (attr.tySetVec3 index x y z, rng)

/-- `utils.randomDirectionVector3OnSphere`: a radial direction from the
emitter's base position with randomized magnitude. -/
def randomDirectionVector3OnSphere (M : MathFns) (rng : Rng) (attr : ShaderAttribute)
    (index posX posY posZ : ℚ) (emitterPosition : V3) (speed speedSpread : ℚ) :
    ShaderAttribute × Rng :=
  let v : V3 := ⟨emitterPosition.x - posX, emitterPosition.y - posY, emitterPosition.z - posZ⟩
  let (m, rng) := randomFloat rng speed speedSpread
  let v := V3.smul (-m) (v.normalize M)
  (attr.tySetVec3 index v.x v.y v.z, rng)

/-- `utils.randomDirectionVector3OnDisc`: as on the sphere, with the z
component written as zero. -/
def randomDirectionVector3OnDisc (M : MathFns) (rng : Rng) (attr : ShaderAttribute)
    (index posX posY posZ : ℚ) (emitterPosition : V3) (speed speedSpread : ℚ) :
    ShaderAttribute × Rng :=
  let v : V3 := ⟨emitterPosition.x - posX, emitterPosition.y - posY, emitterPosition.z - posZ⟩
  let (m, rng) := randomFloat rng speed speedSpread
  let v := V3.smul (-m) (v.normalize M)
  (attr.tySetVec3 index v.x v.y 0, rng)

/-- `utils.getPackedRotationAxis`: randomize a rotation axis and pack it
into a hex value; a random draw is consumed only for the spread
components that are non-zero (JS conditional evaluation). -/
def getPackedRotationAxis (M : MathFns) (rng : Rng) (axis axisSpread : V3) : ℚ × Rng :=
  let v := axis.normalize M
  let (dx, rng) :=
    if axisSpread.x ≠ 0 then
      let (r, rng) := rng.random
      (-axisSpread.x * (1/2) + r * axisSpread.x, rng)
    else (0, rng)
  let (dy, rng) :=
    if axisSpread.y ≠ 0 then
      let (r, rng) := rng.random
      (-axisSpread.y * (1/2) + r * axisSpread.y, rng)
    else (0, rng)
  let (dz, rng) :=
    if axisSpread.z ≠ 0 then
      let (r, rng) := rng.random
      (-axisSpread.z * (1/2) + r * axisSpread.z, rng)
    else (0, rng)
  let v := V3.smul (1/2) ((V3.normalize M ⟨v.x + dx, v.y + dy, v.z + dz⟩).add ⟨1, 1, 1⟩)
  ((JsColor.getHex ⟨v.x, v.y, v.z⟩), rng)

/-- `utils.interpolateArray`, generic in the element type (numbers,
colors and vectors are lerped componentwise by `lerpTypeAgnostic`). -/
def interpolateArrayG {α : Type} (lerpFn : α → α → ℚ → α) (dflt : α)
    (src : List α) (newLength : ℕ) : List α :=
  let sourceLength := src.length
  let factor : ℚ := ((sourceLength : ℚ) - 1) / ((newLength : ℚ) - 1)
  let middle := (List.range (newLength - 2)).map fun j =>
    let f : ℚ := ((j + 1 : ℕ) : ℚ) * factor
    let before := qfloor f
    let after := qceil f
    lerpFn (src.getD before.toNat dflt) (src.getD after.toNat dflt) (f - (before : ℚ))
  [src.getD 0 dflt] ++ middle ++ [src.getD (sourceLength - 1) dflt]

/-- `utils.interpolateArray` on plain numbers. -/
def interpolateArray (src : List ℚ) (newLength : ℕ) : List ℚ :=
  interpolateArrayG lerp 0 src newLength

/-- Componentwise lerp on colors (`utils.lerpTypeAgnostic`). -/
def lerpColor (a b : JsColor) (d : ℚ) : JsColor :=
  ⟨lerp a.r b.r d, lerp a.g b.g d, lerp a.b b.b d⟩

/-- Componentwise lerp on vectors (`utils.lerpTypeAgnostic`). -/
def lerpV3 (a b : V3) (d : ℚ) : V3 :=
  ⟨lerp a.x b.x d, lerp a.y b.y d, lerp a.z b.z d⟩

/-- Clamp on array lengths (`utils.clamp` applied to lengths). -/
def clampNat (value min' max' : ℕ) : ℕ :=
  Max.max min' (Min.min value max')

/-- `utils.ensureValueOverLifetimeCompliance`, generic in the value and
spread element types; scalar (non-array) configuration corresponds to
singleton lists. -/
def ensureValueOverLifetimeComplianceG {α β : Type}
    (lerpA : α → α → ℚ → α) (da : α) (lerpB : β → β → ℚ → β) (db : β)
    (value : List α) (spread : List β) (minLength maxLength : ℕ) :
    List α × List β :=
  let minLength := if minLength = 0 then 3 else minLength
  let maxLength := if maxLength = 0 then 3 else maxLength
  let valueLength := clampNat value.length minLength maxLength
  let spreadLength := clampNat spread.length minLength maxLength
  let desiredLength := Max.max valueLength spreadLength
  let value := if value.length ≠ desiredLength then
      interpolateArrayG lerpA da value desiredLength else value
  let spread := if spread.length ≠ desiredLength then
      interpolateArrayG lerpB db spread desiredLength else spread
  (value, spread)

/-- `utils.ensureValueOverLifetimeCompliance` on a numeric channel
(opacity, size, angle). -/
def ensureValueOverLifetimeCompliance (value spread : List ℚ) (minLength maxLength : ℕ) :
    List ℚ × List ℚ :=
  ensureValueOverLifetimeComplianceG lerp 0 lerp 0 value spread minLength maxLength

/-- JS `Math.max(...)` over a list (`-Infinity` for the empty list is
irrelevant at the call sites, which pass four-entry lists). -/
def maxList (l : List ℚ) : ℚ :=
  l.foldl Max.max (l.getD 0 0)

end utils

/-- The four spawn/force distributions (`IDistribution`). -/
inductive Dist where
  | BOX | SPHERE | DISC | LINE
deriving DecidableEq, Repr

/-- Position channel configuration (`IEmitterPositionState`). -/
structure PositionChannel where
  value : V3
  spread : V3
  spreadClamp : V3
  distribution : Dist
  randomise : Bool
  radius : ℚ
  radiusScale : V3
deriving DecidableEq, Repr

/-- Velocity / acceleration channel configuration. -/
structure ForceChannel where
  value : V3
  spread : V3
  distribution : Dist
  randomise : Bool
deriving DecidableEq, Repr

/-- Drag channel configuration. -/
structure DragChannel where
  value : ℚ
  spread : ℚ
  randomise : Bool
deriving DecidableEq, Repr

/-- Wiggle / maxAge channel configuration. -/
structure PairChannel where
  value : ℚ
  spread : ℚ
deriving DecidableEq, Repr

/-- Orbit channel configuration. -/
structure OrbitChannel where
  axis : V3
  axisSpread : V3
  angle : ℚ
  angleSpread : ℚ
  isStatic : Bool
  center : V3
  randomise : Bool
deriving DecidableEq, Repr

/-- Rotation channel configuration. -/
structure RotationChannel where
  axis : V3
  axisSpread : V3
  angle : ℚ
  angleSpread : ℚ
  isStatic : Bool
  randomise : Bool
deriving DecidableEq, Repr

/-- Color channel configuration (value-over-lifetime keyframes). -/
structure ColorChannel where
  value : List JsColor
  spread : List V3
  randomise : Bool
deriving DecidableEq, Repr

/-- Numeric value-over-lifetime channel configuration (opacity, size,
angle). -/
structure VolChannel where
  value : List ℚ
  spread : List ℚ
  randomise : Bool
deriving DecidableEq, Repr

/-- Per-attribute boolean flags (`resetFlags` / `updateFlags`); keys that
the source leaves undefined read as `false`, matching `=== true`
checks. -/
structure KeyFlags where
  position : Bool := false
  acceleration : Bool := false
  velocity : Bool := false
  orbit : Bool := false
  orbitCenter : Bool := false
  params : Bool := false
  size : Bool := false
  angle : Bool := false
  color : Bool := false
  opacity : Bool := false
  rotation : Bool := false
deriving DecidableEq, Repr

namespace KeyFlags

def get (F : KeyFlags) : AttrKey → Bool
  | .position => F.position
  | .acceleration => F.acceleration
  | .velocity => F.velocity
  | .orbit => F.orbit
  | .orbitCenter => F.orbitCenter
  | .params => F.params
  | .size => F.size
  | .angle => F.angle
  | .color => F.color
  | .opacity => F.opacity
  | .rotation => F.rotation

def set (F : KeyFlags) : AttrKey → Bool → KeyFlags
  | .position, b => { F with position := b }
  | .acceleration, b => { F with acceleration := b }
  | .velocity, b => { F with velocity := b }
  | .orbit, b => { F with orbit := b }
  | .orbitCenter, b => { F with orbitCenter := b }
  | .params, b => { F with params := b }
  | .size, b => { F with size := b }
  | .angle, b => { F with angle := b }
  | .color, b => { F with color := b }
  | .opacity, b => { F with opacity := b }
  | .rotation, b => { F with rotation := b }

end KeyFlags

/-- Per-attribute numeric counters (`updateCounts`). -/
structure KeyCounts where
  position : ℚ := 0
  acceleration : ℚ := 0
  velocity : ℚ := 0
  orbit : ℚ := 0
  orbitCenter : ℚ := 0
  params : ℚ := 0
  size : ℚ := 0
  angle : ℚ := 0
  color : ℚ := 0
  opacity : ℚ := 0
  rotation : ℚ := 0
deriving DecidableEq, Repr

namespace KeyCounts

def get (F : KeyCounts) : AttrKey → ℚ
  | .position => F.position
  | .acceleration => F.acceleration
  | .velocity => F.velocity
  | .orbit => F.orbit
  | .orbitCenter => F.orbitCenter
  | .params => F.params
  | .size => F.size
  | .angle => F.angle
  | .color => F.color
  | .opacity => F.opacity
  | .rotation => F.rotation

def set (F : KeyCounts) : AttrKey → ℚ → KeyCounts
  | .position, b => { F with position := b }
  | .acceleration, b => { F with acceleration := b }
  | .velocity, b => { F with velocity := b }
  | .orbit, b => { F with orbit := b }
  | .orbitCenter, b => { F with orbitCenter := b }
  | .params, b => { F with params := b }
  | .size, b => { F with size := b }
  | .angle, b => { F with angle := b }
  | .color, b => { F with color := b }
  | .opacity, b => { F with opacity := b }
  | .rotation, b => { F with rotation := b }

end KeyCounts

/-- Per-attribute min/max touched-index ranges (`bufferUpdateRanges`);
initialized to `(+∞, -∞)` by `setBufferUpdateRanges`. -/
structure KeyRanges where
  position : XQ × XQ := (.posInf, .negInf)
  acceleration : XQ × XQ := (.posInf, .negInf)
  velocity : XQ × XQ := (.posInf, .negInf)
  orbit : XQ × XQ := (.posInf, .negInf)
  orbitCenter : XQ × XQ := (.posInf, .negInf)
  params : XQ × XQ := (.posInf, .negInf)
  size : XQ × XQ := (.posInf, .negInf)
  angle : XQ × XQ := (.posInf, .negInf)
  color : XQ × XQ := (.posInf, .negInf)
  opacity : XQ × XQ := (.posInf, .negInf)
  rotation : XQ × XQ := (.posInf, .negInf)
deriving DecidableEq, Repr

namespace KeyRanges

def get (F : KeyRanges) : AttrKey → XQ × XQ
  | .position => F.position
  | .acceleration => F.acceleration
  | .velocity => F.velocity
  | .orbit => F.orbit
  | .orbitCenter => F.orbitCenter
  | .params => F.params
  | .size => F.size
  | .angle => F.angle
  | .color => F.color
  | .opacity => F.opacity
  | .rotation => F.rotation

def set (F : KeyRanges) : AttrKey → XQ × XQ → KeyRanges
  | .position, b => { F with position := b }
  | .acceleration, b => { F with acceleration := b }
  | .velocity, b => { F with velocity := b }
  | .orbit, b => { F with orbit := b }
  | .orbitCenter, b => { F with orbitCenter := b }
  | .params, b => { F with params := b }
  | .size, b => { F with size := b }
  | .angle, b => { F with angle := b }
  | .color, b => { F with color := b }
  | .opacity, b => { F with opacity := b }
  | .rotation, b => { F with rotation := b }

end KeyRanges

/-- A particle emitter's state (`Emitter`).  `finishFireCount` counts
invocations of the registered completion-callback list;
`onFinishCbCount` counts registered callbacks. -/
structure Emitter where
  uuid : ℕ
  typeDist : Dist
  particleCount : ℕ
  duration : Option ℚ
  isStatic : Bool
  activeMultiplier : ℚ
  direction : ℤ
  alive : Bool
  particlesPerSecond : ℚ
  activationIndex : ℚ
  attributeOffset : ℕ
  attributeEnd : ℕ
  activationEnd : ℚ
  age : ℚ
  activeParticleCount : ℤ
  inGroup : Bool
  hasAttributes : Bool
  paramsInit : Bool
  onFinishCbCount : ℕ
  finishFireCount : ℕ
  position : PositionChannel
  velocity : ForceChannel
  acceleration : ForceChannel
  drag : DragChannel
  wiggle : PairChannel
  orbit : OrbitChannel
  rotation : RotationChannel
  maxAge : PairChannel
  color : ColorChannel
  opacity : VolChannel
  size : VolChannel
  angle : VolChannel
  resetFlags : KeyFlags
  updateFlags : KeyFlags
  updateCounts : KeyCounts
  bufferUpdateRanges : KeyRanges
deriving DecidableEq, Repr

/-- The user-facing emitter options (`IEmitterOptions`); scalar
value-over-lifetime inputs correspond to singleton lists. -/
structure EmitterOptions where
  type : Option Dist := none
  particleCount : Option ℕ := none
  duration : Option ℚ := none
  isStatic : Option Bool := none
  activeMultiplier : Option ℚ := none
  direction : Option ℤ := none
  alive : Option Bool := none
  onFinish : Bool := false
  maxAgeValue : Option ℚ := none
  maxAgeSpread : Option ℚ := none
  positionValue : Option V3 := none
  positionSpread : Option V3 := none
  positionSpreadClamp : Option V3 := none
  positionDistribution : Option Dist := none
  positionRandomise : Option Bool := none
  positionRadius : Option ℚ := none
  positionRadiusScale : Option V3 := none
  velocityValue : Option V3 := none
  velocitySpread : Option V3 := none
  velocityDistribution : Option Dist := none
  velocityRandomise : Option Bool := none
  accelerationValue : Option V3 := none
  accelerationSpread : Option V3 := none
  accelerationDistribution : Option Dist := none
  accelerationRandomise : Option Bool := none
  dragValue : Option ℚ := none
  dragSpread : Option ℚ := none
  dragRandomise : Option Bool := none
  radiusRandomise : Option Bool := none
  wiggleValue : Option ℚ := none
  wiggleSpread : Option ℚ := none
  orbitAxis : Option V3 := none
  orbitAxisSpread : Option V3 := none
  orbitAngle : Option ℚ := none
  orbitAngleSpread : Option ℚ := none
  orbitStatic : Option Bool := none
  orbitCenter : Option V3 := none
  orbitRandomise : Option Bool := none
  rotationAxis : Option V3 := none
  rotationAxisSpread : Option V3 := none
  rotationAngle : Option ℚ := none
  rotationAngleSpread : Option ℚ := none
  rotationStatic : Option Bool := none
  rotationRandomise : Option Bool := none
  colorValue : Option (List JsColor) := none
  colorSpread : Option (List V3) := none
  colorRandomise : Option Bool := none
  opacityValue : Option (List ℚ) := none
  opacitySpread : Option (List ℚ) := none
  opacityRandomise : Option Bool := none
  sizeValue : Option (List ℚ) := none
  sizeSpread : Option (List ℚ) := none
  sizeRandomise : Option Bool := none
  angleValue : Option (List ℚ) := none
  angleSpread : Option (List ℚ) := none
  angleRandomise : Option Bool := none
deriving Repr

/-- Length of the value-over-lifetime keyframe arrays
(`valueOverLifetimeLength`). -/
def valueOverLifetimeLength : ℕ := 4

namespace EmitterOptions

/-- Resolved default distribution (`options.type ?? BOX`). -/
def typeDist (o : EmitterOptions) : Dist := o.type.getD Dist.BOX

/-- Resolved position channel. -/
def positionChannel (o : EmitterOptions) : PositionChannel :=
  ⟨o.positionValue.getD V3.zero, o.positionSpread.getD V3.zero, o.positionSpreadClamp.getD V3.zero,
   o.positionDistribution.getD o.typeDist, o.positionRandomise.getD false,
   o.positionRadius.getD 10, o.positionRadiusScale.getD ⟨1, 1, 1⟩⟩

/-- Resolved velocity channel. -/
def velocityChannel (o : EmitterOptions) : ForceChannel :=
  ⟨o.velocityValue.getD V3.zero, o.velocitySpread.getD V3.zero,
   o.velocityDistribution.getD o.typeDist, o.velocityRandomise.getD false⟩

/-- Resolved acceleration channel. -/
def accelerationChannel (o : EmitterOptions) : ForceChannel :=
  ⟨o.accelerationValue.getD V3.zero, o.accelerationSpread.getD V3.zero,
   o.accelerationDistribution.getD o.typeDist, o.accelerationRandomise.getD false⟩

/-- Resolved drag channel. -/
def dragChannel (o : EmitterOptions) : DragChannel :=
  ⟨o.dragValue.getD 0, o.dragSpread.getD 0, o.dragRandomise.getD false⟩

/-- Resolved wiggle channel. -/
def wiggleChannel (o : EmitterOptions) : PairChannel :=
  ⟨o.wiggleValue.getD 0, o.wiggleSpread.getD 0⟩

/-- Resolved orbit channel (the center defaults to the position
value). -/
def orbitChannel (o : EmitterOptions) : OrbitChannel :=
  ⟨o.orbitAxis.getD ⟨0, 1, 0⟩, o.orbitAxisSpread.getD V3.zero, o.orbitAngle.getD 0,
   o.orbitAngleSpread.getD 0, o.orbitStatic.getD false,
   o.orbitCenter.getD (o.positionValue.getD V3.zero), o.orbitRandomise.getD false⟩

/-- Resolved rotation channel. -/
def rotationChannel (o : EmitterOptions) : RotationChannel :=
  ⟨o.rotationAxis.getD ⟨0, 0, 1⟩, o.rotationAxisSpread.getD V3.zero, o.rotationAngle.getD 0,
   o.rotationAngleSpread.getD 0, o.rotationStatic.getD false, o.rotationRandomise.getD false⟩

/-- Resolved maxAge channel. -/
def maxAgeChannel (o : EmitterOptions) : PairChannel :=
  ⟨o.maxAgeValue.getD 2, o.maxAgeSpread.getD 0⟩

/-- Resolved respawn-randomization flags (`resetFlags`). -/
def resetFlagsOf (o : EmitterOptions) : KeyFlags :=
  { position := o.positionRandomise.getD false || o.radiusRandomise.getD false
    velocity := o.velocityRandomise.getD false
    acceleration := o.accelerationRandomise.getD false || o.dragRandomise.getD false
    orbit := o.orbitRandomise.getD false
    orbitCenter := o.orbitRandomise.getD false
    rotation := o.rotationRandomise.getD false
    size := o.sizeRandomise.getD false
    color := o.colorRandomise.getD false
    opacity := o.opacityRandomise.getD false
    angle := o.angleRandomise.getD false }

/-- Resolved color channel after value-over-lifetime compliance. -/
def colorChannel (o : EmitterOptions) : ColorChannel :=
  let vs := utils.ensureValueOverLifetimeComplianceG utils.lerpColor ⟨0, 0, 0⟩
    utils.lerpV3 V3.zero (o.colorValue.getD [⟨1, 1, 1⟩]) (o.colorSpread.getD [V3.zero])
    valueOverLifetimeLength valueOverLifetimeLength
  ⟨vs.1, vs.2, o.colorRandomise.getD false⟩

/-- Resolved opacity channel after value-over-lifetime compliance. -/
def opacityChannel (o : EmitterOptions) : VolChannel :=
  let vs := utils.ensureValueOverLifetimeCompliance (o.opacityValue.getD [1])
    (o.opacitySpread.getD [0]) valueOverLifetimeLength valueOverLifetimeLength
  ⟨vs.1, vs.2, o.opacityRandomise.getD false⟩

/-- Resolved size channel after value-over-lifetime compliance. -/
def sizeChannel (o : EmitterOptions) : VolChannel :=
  let vs := utils.ensureValueOverLifetimeCompliance (o.sizeValue.getD [1])
    (o.sizeSpread.getD [0]) valueOverLifetimeLength valueOverLifetimeLength
  ⟨vs.1, vs.2, o.sizeRandomise.getD false⟩

/-- Resolved angle channel after value-over-lifetime compliance; note
the source defaults the angle channel's `randomise` flag from the
position options. -/
def angleChannel (o : EmitterOptions) : VolChannel :=
  let vs := utils.ensureValueOverLifetimeCompliance (o.angleValue.getD [0])
    (o.angleSpread.getD [0]) valueOverLifetimeLength valueOverLifetimeLength
  ⟨vs.1, vs.2, o.positionRandomise.getD false⟩

end EmitterOptions

/-- The emitter constructor; the uuid (randomly generated in the source)
is an explicit parameter. -/
def Emitter.init (uuid : ℕ) (o : EmitterOptions) : Emitter :=
  { uuid := uuid
    typeDist := o.typeDist
    particleCount := o.particleCount.getD 100
    duration := o.duration
    isStatic := o.isStatic.getD false
    activeMultiplier := o.activeMultiplier.getD 1
    direction := o.direction.getD 1
    alive := o.alive.getD true
    particlesPerSecond := 0
    activationIndex := 0
    attributeOffset := 0
    attributeEnd := 0
    activationEnd := 0
    age := 0
    activeParticleCount := 0
    inGroup := false
    hasAttributes := false
    paramsInit := false
    onFinishCbCount := if o.onFinish then 1 else 0
    finishFireCount := 0
    position := o.positionChannel
    velocity := o.velocityChannel
    acceleration := o.accelerationChannel
    drag := o.dragChannel
    wiggle := o.wiggleChannel
    orbit := o.orbitChannel
    rotation := o.rotationChannel
    maxAge := o.maxAgeChannel
    color := o.colorChannel
    opacity := o.opacityChannel
    size := o.sizeChannel
    angle := o.angleChannel
    resetFlags := o.resetFlagsOf
    updateFlags := {}
    updateCounts := {}
    bufferUpdateRanges := {} }

/-- The two force channels handled by `assignForceValue`. -/
inductive ForceKey where
  | velocity | acceleration
deriving DecidableEq, Repr

/-- The attribute a force channel writes. -/
def ForceKey.attrKey : ForceKey → AttrKey
  | .velocity => .velocity
  | .acceleration => .acceleration

/-- The two channels handled by `assignAbsLifetimeValue`. -/
inductive LifeKey where
  | opacity | size
deriving DecidableEq, Repr

/-- The attribute an abs-lifetime channel writes. -/
def LifeKey.attrKey : LifeKey → AttrKey
  | .opacity => .opacity
  | .size => .size

namespace Emitter

/-- The force channel configuration selected by name. -/
def forceChannelOf (e : Emitter) : ForceKey → ForceChannel
  | .velocity => e.velocity
  | .acceleration => e.acceleration

/-- The abs-lifetime channel configuration selected by name. -/
def lifeChannelOf (e : Emitter) : LifeKey → VolChannel
  | .opacity => e.opacity
  | .size => e.size

/-- `assignPositionValue`: dispatch on the position distribution. -/
def assignPositionValue (M : MathFns) (e : Emitter) (A : Attributes) (rng : Rng) (index : ℚ) :
    Attributes × Rng :=
  let prop := e.position
  match prop.distribution with
  | .BOX =>
    let (a, rng) := utils.randomVector3 rng A.position index prop.value prop.spread
      (some prop.spreadClamp)
    (A.set .position a, rng)
  | .SPHERE =>
    let (a, rng) := utils.randomVector3OnSphere M rng A.position index prop.value prop.radius
      prop.spread.x prop.radiusScale prop.spreadClamp.x
    (A.set .position a, rng)
  | .DISC =>
    let (a, rng) := utils.randomVector3OnDisc M rng A.position index prop.value prop.radius
      prop.spread.x prop.radiusScale prop.spreadClamp.x
    (A.set .position a, rng)
  | .LINE =>
    let (a, rng) := utils.randomVector3OnLine rng A.position index prop.value prop.spread
    (A.set .position a, rng)

/-- The radial branch of `assignForceValue`: read back the particle's
assigned position (an undefined read only arises together with writes
that are dropped anyway). -/
def assignForceRadial (M : MathFns) (e : Emitter) (A : Attributes) (rng : Rng) (index : ℚ)
    (fk : ForceKey) (disc : Bool) : Attributes × Rng :=
  let prop := e.forceChannelOf fk
  let pos := A.position.rawArray
  let i := index * 3
  let pX := (jsRead pos i).getD 0
  let pY := (jsRead pos (i + 1)).getD 0
  let pZ := (jsRead pos (i + 2)).getD 0
  let (a, rng) :=
    if disc then
      utils.randomDirectionVector3OnDisc M rng (A.get fk.attrKey) index pX pY pZ
        e.position.value prop.value.x prop.spread.x
    else
      utils.randomDirectionVector3OnSphere M rng (A.get fk.attrKey) index pX pY pZ
        e.position.value prop.value.x prop.spread.x
  (A.set fk.attrKey a, rng)

/-- `assignForceValue`: dispatch on the channel's distribution, then
pack the clamped drag scalar into the acceleration's 4th component. -/
def assignForceValue (M : MathFns) (e : Emitter) (A : Attributes) (rng : Rng) (index : ℚ)
    (fk : ForceKey) : Attributes × Rng :=
  let prop := e.forceChannelOf fk
  let (A, rng) :=
    match prop.distribution with
    | .BOX =>
      let (a, rng) := utils.randomVector3 rng (A.get fk.attrKey) index prop.value prop.spread none
      (A.set fk.attrKey a, rng)
    | .SPHERE => assignForceRadial M e A rng index fk false
    | .DISC => assignForceRadial M e A rng index fk true
    | .LINE =>
      let (a, rng) := utils.randomVector3OnLine rng (A.get fk.attrKey) index prop.value prop.spread
      (A.set fk.attrKey a, rng)
  if fk = .acceleration then
    let (d, rng) := utils.randomFloat rng e.drag.value e.drag.spread
    (A.modify .acceleration (·.tyWriteRaw (index * 4 + 3) (clamp d 0 1)), rng)
  else (A, rng)

/-- `assignAbsLifetimeValue` (opacity / size): broadcast a single sample
when all keyframe values and spreads agree, otherwise sample the four
keyframes independently; results are non-negative. -/
def assignAbsLifetimeValue (e : Emitter) (A : Attributes) (rng : Rng) (index : ℚ)
    (lk : LifeKey) : Attributes × Rng :=
  let prop := e.lifeChannelOf lk
  let attr := A.get lk.attrKey
  if utils.arrayValuesAreEqual prop.value && utils.arrayValuesAreEqual prop.spread then
    let (v, rng) := utils.randomFloat rng (prop.value.getD 0 0) (prop.spread.getD 0 0)
    (A.set lk.attrKey (attr.tySetVec4 index |v| |v| |v| |v|), rng)
  else
    let (v0, rng) := utils.randomFloat rng (prop.value.getD 0 0) (prop.spread.getD 0 0)
    let (v1, rng) := utils.randomFloat rng (prop.value.getD 1 0) (prop.spread.getD 1 0)
    let (v2, rng) := utils.randomFloat rng (prop.value.getD 2 0) (prop.spread.getD 2 0)
    let (v3, rng) := utils.randomFloat rng (prop.value.getD 3 0) (prop.spread.getD 3 0)
    (A.set lk.attrKey (attr.tySetVec4 index |v0| |v1| |v2| |v3|), rng)

/-- `assignAngleValue`: as `assignAbsLifetimeValue` but without the
non-negativity clamp. -/
def assignAngleValue (e : Emitter) (A : Attributes) (rng : Rng) (index : ℚ) :
    Attributes × Rng :=
  let prop := e.angle
  let attr := A.angle
  if utils.arrayValuesAreEqual prop.value && utils.arrayValuesAreEqual prop.spread then
    let (v, rng) := utils.randomFloat rng (prop.value.getD 0 0) (prop.spread.getD 0 0)
    (A.set .angle (attr.tySetVec4 index v v v v), rng)
  else
    let (v0, rng) := utils.randomFloat rng (prop.value.getD 0 0) (prop.spread.getD 0 0)
    let (v1, rng) := utils.randomFloat rng (prop.value.getD 1 0) (prop.spread.getD 1 0)
    let (v2, rng) := utils.randomFloat rng (prop.value.getD 2 0) (prop.spread.getD 2 0)
    let (v3, rng) := utils.randomFloat rng (prop.value.getD 3 0) (prop.spread.getD 3 0)
    (A.set .angle (attr.tySetVec4 index v0 v1 v2 v3), rng)

/-- `assignParamsValue`: packs (alive = 1 iff the emitter is static,
age = 0, maxAge = `|base ± spread|`, wiggle = `base ± spread`). -/
def assignParamsValue (e : Emitter) (A : Attributes) (rng : Rng) (index : ℚ) :
    Attributes × Rng :=
  let (m, rng) := utils.randomFloat rng e.maxAge.value e.maxAge.spread
  let (w, rng) := utils.randomFloat rng e.wiggle.value e.wiggle.spread
  (A.modify .params (·.tySetVec4 index (if e.isStatic then 1 else 0) 0 |m| w), rng)

/-- `assignOrbitValue`: packed randomized axis, randomized angle and the
static/dynamic flag, plus the per-particle orbit center. -/
def assignOrbitValue (M : MathFns) (e : Emitter) (A : Attributes) (rng : Rng) (index : ℚ) :
    Attributes × Rng :=
  let (axis, rng) := utils.getPackedRotationAxis M rng e.orbit.axis e.orbit.axisSpread
  let (ang, rng) := utils.randomFloat rng e.orbit.angle e.orbit.angleSpread
  let A := A.modify .orbit (·.tySetVec3 index axis ang (if e.orbit.isStatic then 0 else 1))
  let A := A.modify .orbitCenter
    (·.tySetVec3 index e.orbit.center.x e.orbit.center.y e.orbit.center.z)
  (A, rng)

/-- `assignRotationValue`: as the orbit axis/angle packing with a
separate static/dynamic flag (note the flipped flag encoding). -/
def assignRotationValue (M : MathFns) (e : Emitter) (A : Attributes) (rng : Rng) (index : ℚ) :
    Attributes × Rng :=
  let (axis, rng) := utils.getPackedRotationAxis M rng e.rotation.axis e.rotation.axisSpread
  let (ang, rng) := utils.randomFloat rng e.rotation.angle e.rotation.angleSpread
  (A.modify .rotation (·.tySetVec3 index axis ang (if e.rotation.isStatic then 1 else 0)), rng)

/-- `assignColorValue`. -/
def assignColorValue (e : Emitter) (A : Attributes) (rng : Rng) (index : ℚ) :
    Attributes × Rng :=
  let (a, rng) := utils.randomColorAsHex rng A.color index e.color.value e.color.spread
  (A.set .color a, rng)

/-- `_assignValue`: dispatch on the attribute key (the `orbitCenter` key
has no case and assigns nothing). -/
def assignValue (M : MathFns) (e : Emitter) (A : Attributes) (rng : Rng) (key : AttrKey)
    (index : ℚ) : Attributes × Rng :=
  match key with
  | .position => e.assignPositionValue M A rng index
  | .velocity => e.assignForceValue M A rng index .velocity
  | .acceleration => e.assignForceValue M A rng index .acceleration
  | .size => e.assignAbsLifetimeValue A rng index .size
  | .opacity => e.assignAbsLifetimeValue A rng index .opacity
  | .angle => e.assignAngleValue A rng index
  | .params => e.assignParamsValue A rng index
  | .orbit => e.assignOrbitValue M A rng index
  | .rotation => e.assignRotationValue M A rng index
  | .color => e.assignColorValue A rng index
  | .orbitCenter => (A, rng)

/-- `_updateAttributeUpdateRange`: widen the per-emitter touched-index
range of one attribute. -/
def updateAttributeUpdateRange (e : Emitter) (key : AttrKey) (i : ℚ) : Emitter :=
  let r := e.bufferUpdateRanges.get key
  { e with bufferUpdateRanges :=
      e.bufferUpdateRanges.set key (XQ.min (.fin i) r.1, XQ.max (.fin i) r.2) }

/-- `setBufferUpdateRanges`: every attribute's touched range starts at
`(+∞, -∞)`. -/
def setBufferUpdateRanges (e : Emitter) : Emitter :=
  { e with bufferUpdateRanges := {} }

/-- `calculatePPSValue`: particles-per-second from the effective
lifetime; a truthy duration caps the lifetime. -/
def calculatePPSValue (e : Emitter) (groupMaxAge : ℚ) : Emitter :=
  match e.duration with
  | some d =>
    if d ≠ 0 then
      { e with particlesPerSecond :=
          (e.particleCount : ℚ) / (if groupMaxAge < d then groupMaxAge else d) }
    else { e with particlesPerSecond := (e.particleCount : ℚ) / groupMaxAge }
  | none => { e with particlesPerSecond := (e.particleCount : ℚ) / groupMaxAge }

/-- `setAttributeOffset`: fix the slot range and park the activation
cursor at its start. -/
def setAttributeOffset (e : Emitter) (startIndex : ℕ) : Emitter :=
  { e with
    attributeOffset := startIndex
    activationIndex := (startIndex : ℚ)
    activationEnd := (startIndex : ℚ) + (e.particleCount : ℚ) }

/-- `onRemove`: clear the group-assigned state. -/
def onRemove (e : Emitter) : Emitter :=
  { e with
    particlesPerSecond := 0
    attributeOffset := 0
    activationIndex := 0
    activeParticleCount := 0
    inGroup := false
    hasAttributes := false
    paramsInit := false
    age := 0 }

/-- `enable`. -/
def enable (e : Emitter) : Emitter := { e with alive := true }

/-- `disable`. -/
def disable (e : Emitter) : Emitter := { e with alive := false }

/-- One key of `_resetParticle`: re-assign the channel when its reset or
update flag is set, and maintain the update-count window (which clears
an update flag after `2 × particleCount` applications). -/
def resetParticleStep (M : MathFns) (index : ℚ) (st : Emitter × Attributes × Rng)
    (key : AttrKey) : Emitter × Attributes × Rng :=
  let (e, A, rng) := st
  let updateFlag := e.updateFlags.get key
  if e.resetFlags.get key = true ∨ updateFlag = true then
    let ar := e.assignValue M A rng key index
    let A := ar.1
    let rng := ar.2
    let e := e.updateAttributeUpdateRange key index
    let e :=
      if updateFlag = true ∧ e.updateCounts.get key = (e.particleCount : ℚ) * 2 then
        { e with updateFlags := e.updateFlags.set key false
                 updateCounts := e.updateCounts.set key 0 }
      else if updateFlag = true then
        { e with updateCounts := e.updateCounts.set key (e.updateCounts.get key + 1) }
      else e
    (e, A, rng)
  else st

/-- `_resetParticle`: the attribute keys are visited in reverse
order. -/
def resetParticle (M : MathFns) (e : Emitter) (A : Attributes) (rng : Rng) (index : ℚ) :
    Emitter × Attributes × Rng :=
  attributeKeys.reverse.foldl (resetParticleStep M index) (e, A, rng)

/-- One slot of `_checkParticleAges`.  When the slot read is undefined
(out-of-bounds), the JS NaN arithmetic stores nothing and kills nothing,
but the dirty range is still widened. -/
def checkAgeStep (dt : ℚ) (st : Emitter × Attributes) (i : ℕ) : Emitter × Attributes :=
  let (e, A) := st
  let arr := (A.get .params).rawArray
  let index : ℚ := (i : ℚ) * 4
  match jsRead arr index with
  | none => (e.updateAttributeUpdateRange .params (i : ℚ), A)
  | some alive =>
    if alive = 0 then st
    else
      let age := (jsRead arr (index + 1)).getD 0
      let maxAge := (jsRead arr (index + 2)).getD 0
      let (alive, age, e) :=
        if e.direction = 1 then
          let age := age + dt
          if age ≥ maxAge then (0, 0, { e with activeParticleCount := e.activeParticleCount - 1 })
          else (alive, age, e)
        else
          let age := age - dt
          if age ≤ 0 then
            (0, maxAge, { e with activeParticleCount := e.activeParticleCount - 1 })
          else (alive, age, e)
      let A := A.modify .params fun a => (a.tyWriteRaw index alive).tyWriteRaw (index + 1) age
      (e.updateAttributeUpdateRange .params (i : ℚ), A)

/-- `_checkParticleAges`: age the live particles of `[start, finish)`
(visited in descending order) and kill the expired ones. -/
def checkParticleAges (e : Emitter) (A : Attributes) (start finish : ℕ) (dt : ℚ) :
    Emitter × Attributes :=
  (((List.range (finish - start)).map (start + ·)).reverse).foldl (checkAgeStep dt) (e, A)

/-- One iteration of `_activateParticles`; the loop variable may be
fractional (single-particle emitters do not floor their cursor), in
which case every slot access is dropped by the typed array. -/
def activateStep (M : MathFns) (activationStart dtPerParticle : ℚ)
    (st : Emitter × Attributes × Rng) (k : ℕ) : Emitter × Attributes × Rng :=
  let (e, A, rng) := st
  let i : ℚ := activationStart + (k : ℚ)
  let index := i * 4
  let arr := (A.get .params).rawArray
  if jsRead arr index ≠ some 0 ∧ e.particleCount ≠ 1 then st
  else
    let e := { e with activeParticleCount := e.activeParticleCount + 1 }
    let A := A.modify .params (·.tyWriteRaw index 1)
    let st2 := e.resetParticle M A rng i
    let e := st2.1
    let A := st2.2.1
    let rng := st2.2.2
    let dtValue := dtPerParticle * (i - activationStart)
    let arr2 := (A.get .params).rawArray
    let v := if e.direction = -1 then (jsRead arr2 (index + 2)).getD 0 - dtValue else dtValue
    let A := A.modify .params (·.tyWriteRaw (index + 1) v)
    (e.updateAttributeUpdateRange .params i, A, rng)

/-- `_activateParticles` over the fractional window
`[activationStart, activationEnd)`. -/
def activateParticles (M : MathFns) (e : Emitter) (A : Attributes) (rng : Rng)
    (activationStart activationEnd dtPerParticle : ℚ) : Emitter × Attributes × Rng :=
  (List.range (jsForCount activationStart activationEnd)).foldl
    (activateStep M activationStart dtPerParticle) (e, A, rng)

/-- Whether a finite duration has been exceeded
(`this.duration !== null && this.age > this.duration`). -/
def durationExceeded (e : Emitter) : Bool :=
  match e.duration with
  | some d => decide (e.age > d)
  | none => false

/-- The emitter-death step of `tick`: reset the age; on the
alive-to-dead transition the completion callbacks fire once. -/
def tickDead (e : Emitter) : Emitter :=
  if e.alive = false then { e with age := 0 }
  else { e with alive := false, age := 0, finishFireCount := e.finishFireCount + 1 }

/-- The activation phase of `tick` (steps 4-6 of the per-tick
algorithm). -/
def tickActivate (M : MathFns) (e : Emitter) (A : Attributes) (rng : Rng)
    (dt ppsDt activationIndex : ℚ) (start finish : ℕ) : Emitter × Attributes × Rng :=
  let activationStart :=
    if e.particleCount = 1 then activationIndex else ((qfloor activationIndex : ℤ) : ℚ)
  let activationEnd := Min.min (activationStart + ppsDt) e.activationEnd
  let activationCount := jsTrunc (activationEnd - e.activationIndex)
  let dtPerParticle := if activationCount > 0 then dt / (activationCount : ℚ) else 0
  let st2 := e.activateParticles M A rng activationStart activationEnd dtPerParticle
  let e := st2.1
  let A := st2.2.1
  let rng := st2.2.2
  let e := { e with activationIndex := e.activationIndex + ppsDt }
  let e := if e.activationIndex > (finish : ℚ) then { e with activationIndex := (start : ℚ) }
    else e
  ({ e with age := e.age + dt }, A, rng)

/-- The non-static body of `Emitter.tick` (steps 1-6 of the per-tick
algorithm). -/
def tickBody (M : MathFns) (e : Emitter) (A : Attributes) (rng : Rng) (dt : ℚ) :
    Emitter × Attributes × Rng :=
  let e1 : Emitter := { e with paramsInit := true }
  let start := e1.attributeOffset
  let finish := start + e1.particleCount
  let ppsDt := e1.particlesPerSecond * e1.activeMultiplier * dt
  let activationIndex := e1.activationIndex
  let ca := e1.checkParticleAges A start finish dt
  let e2 := ca.1
  let A2 := ca.2
  if e2.alive = false then (e2.tickDead, A2, rng)
  else if e2.durationExceeded then (e2.tickDead, A2, rng)
  else e2.tickActivate M A2 rng dt ppsDt activationIndex start finish

/-- `Emitter.tick`: one frame of simulation for this emitter's slot
range (a no-op for static emitters). -/
def tick (M : MathFns) (st : Emitter × Attributes × Rng) (dt : ℚ) :
    Emitter × Attributes × Rng :=
  let (e, A, rng) := st
  if e.isStatic then st
  else tickBody M e A rng dt

end Emitter

/-- Diagnostics emitted on the console channel. -/
inductive Diag where
  | errorNotEmitter
  | errorAlreadyInGroup
  | errorOtherGroup
  | errorNotMember
  | warnMaxExceeded
  | warnNoMaxParticleCount
deriving DecidableEq, Repr

/-- The group options retained by the embedding (`IGroupOptions`);
material/appearance options belong to the external rendering
collaborator. -/
structure GroupOptions where
  fixedTimeStep : Option ℚ := none
  maxParticleCount : Option ℕ := none
  textureFramesX : ℕ := 1
  textureFramesY : ℕ := 1
deriving Repr

/-- An emitter group (`EmitterGroup`): the owner of all attribute
buffers and the member emitters. -/
structure EmitterGroup where
  fixedTimeStep : ℚ
  maxParticleCount : Option ℕ
  shouldCalculateSprite : Bool
  shouldRotateTexture : Bool
  shouldOrbitParticles : Bool
  shouldWiggleParticles : Bool
  emitters : List Emitter
  emitterIDs : List ℕ
  particleCount : ℕ
  attributes : Attributes
  attributesNeedRefresh : Bool
  attributesNeedDynamicReset : Bool
  runTime : ℚ
  deltaTime : ℚ
  materialNeedsUpdate : Bool
deriving DecidableEq, Repr

namespace EmitterGroup

/-- The group constructor; warns when no maximum particle count is
declared. -/
def init (o : GroupOptions) : EmitterGroup × List Diag :=
  ({ fixedTimeStep := o.fixedTimeStep.getD (16 / 1000)
     maxParticleCount := o.maxParticleCount
     shouldCalculateSprite := decide (o.textureFramesX > 1) || decide (o.textureFramesY > 1)
     shouldRotateTexture := false
     shouldOrbitParticles := false
     shouldWiggleParticles := false
     emitters := []
     emitterIDs := []
     particleCount := 0
     attributes := Attributes.init
     attributesNeedRefresh := false
     attributesNeedDynamicReset := false
     runTime := 0
     deltaTime := 0
     materialNeedsUpdate := false },
   if o.maxParticleCount = none then [.warnNoMaxParticleCount] else [])

/-- One emitter's contribution to `updateDefines`. -/
def updateDefinesStep (g : EmitterGroup) (e : Emitter) : EmitterGroup :=
  let g :=
    if ¬ g.shouldCalculateSprite then
      { g with shouldRotateTexture := g.shouldRotateTexture ||
          truthy (Max.max (utils.maxList e.angle.value) (utils.maxList e.angle.spread)) }
    else g
  { g with
    shouldOrbitParticles := g.shouldOrbitParticles ||
      truthy (Max.max e.orbit.angle e.orbit.angleSpread)
    shouldWiggleParticles := g.shouldWiggleParticles ||
      truthy (Max.max e.wiggle.value e.wiggle.spread) }

/-- `updateDefines`: scan all member emitters (in reverse order) for the
optional shader features, then flag the material. -/
def updateDefines (g : EmitterGroup) : EmitterGroup :=
  { g.emitters.reverse.foldl updateDefinesStep g with materialNeedsUpdate := true }

/-- `_applyAttributesToGeometry`, reduced to the modelled boundary: the
scene-graph geometry itself is external; each buffer attribute is marked
as needing an update. -/
def applyAttributesToGeometry (A : Attributes) : Attributes :=
  attributeKeys.foldl (fun A k => A.modify k fun a => { a with bufferNeedsUpdate := true }) A

/-- The per-slot population pass of `addEmitter` (the body of its
assignment loop, in source order). -/
def assignAllForSlot (M : MathFns) (e : Emitter) (st : Attributes × Rng) (i : ℚ) :
    Attributes × Rng :=
  let (A, rng) := st
  let (A, rng) := e.assignPositionValue M A rng i
  let (A, rng) := e.assignForceValue M A rng i .velocity
  let (A, rng) := e.assignForceValue M A rng i .acceleration
  let (A, rng) := e.assignAbsLifetimeValue A rng i .opacity
  let (A, rng) := e.assignAbsLifetimeValue A rng i .size
  let (A, rng) := e.assignAngleValue A rng i
  let (A, rng) := e.assignOrbitValue M A rng i
  let (A, rng) := e.assignRotationValue M A rng i
  let (A, rng) := e.assignParamsValue A rng i
  e.assignColorValue A rng i

/-- The success path of `addEmitter` (all guards already passed). -/
def addEmitterChecked (M : MathFns) (g : EmitterGroup) (e : Emitter) (rng : Rng) :
    EmitterGroup × Emitter × Rng × List Diag :=
  let start := g.particleCount
  let finish := start + e.particleCount
  let g := { g with particleCount := finish }
  let diags :=
    if (match g.maxParticleCount with | some c => decide (g.particleCount > c) | none => false)
    then [Diag.warnMaxExceeded] else []
  let e := e.calculatePPSValue (e.maxAge.value + e.maxAge.spread)
  let e := e.setBufferUpdateRanges
  let e := e.setAttributeOffset start
  let e := { e with inGroup := true, hasAttributes := true }
  let sz := g.maxParticleCount.getD g.particleCount
  let A := attributeKeys.foldl (fun A k => A.modify k (·.createBufferAttribute sz)) g.attributes
  let (A, rng) := (List.range e.particleCount).foldl
    (fun st k => assignAllForSlot M e st ((start + k : ℕ) : ℚ)) (A, rng)
  let A := applyAttributesToGeometry A
  let g := { g with
    attributes := A
    emitters := g.emitters ++ [e]
    emitterIDs := g.emitterIDs ++ [e.uuid] }
  let g := g.updateDefines
  ({ g with materialNeedsUpdate := true, attributesNeedRefresh := true }, e, rng, diags)

/-- `addEmitter` with its misuse guards; returns the group, the
emitter's state after the call and the diagnostics emitted. -/
def addEmitter (M : MathFns) (g : EmitterGroup) (e : Emitter) (rng : Rng) :
    EmitterGroup × Emitter × Rng × List Diag :=
  if g.emitterIDs.contains e.uuid then (g, e, rng, [.errorAlreadyInGroup])
  else if e.inGroup then (g, e, rng, [.errorOtherGroup])
  else g.addEmitterChecked M e rng

/-- `addEmitter` including the dynamic `instanceof` guard: a non-emitter
argument is modelled as `none`. -/
def addEmitterAny (M : MathFns) (g : EmitterGroup) (arg : Option Emitter) (rng : Rng) :
    EmitterGroup × Option Emitter × Rng × List Diag :=
  match arg with
  | none => (g, none, rng, [.errorNotEmitter])
  | some e =>
    let (g, e, rng, ds) := g.addEmitter M e rng
    (g, some e, rng, ds)

/-- Zero the alive and age components of every slot of `[start, finish)`
in the params attribute. -/
def zeroParamsRange (A : Attributes) (start finish : ℕ) : Attributes :=
  A.modify .params fun a =>
    (List.range (finish - start)).foldl
      (fun a k =>
        let i : ℚ := ((start + k : ℕ) : ℚ)
        (a.tyWriteRaw (i * 4) 0).tyWriteRaw (i * 4 + 1) 0) a

/-- `removeEmitter` with its misuse guards: zero alive+age of the
removed range in the params buffer, splice the range out of every other
buffer, fix the total count and detach the emitter. -/
def removeEmitter (g : EmitterGroup) (e : Emitter) : EmitterGroup × Emitter × List Diag :=
  match g.emitterIDs.indexOf? e.uuid with
  | none => (g, e, [.errorNotMember])
  | some idx =>
    let start := e.attributeOffset
    let finish := start + e.particleCount
    let A := zeroParamsRange g.attributes start finish
    let emitters := g.emitters.eraseIdx idx
    let emitterIDs := g.emitterIDs.eraseIdx idx
    let A := attributeKeys.foldl
      (fun A k => if k = .params then A else A.modify k (·.splice start finish)) A
    let g := { g with
      attributes := A
      emitters := emitters
      emitterIDs := emitterIDs
      particleCount := g.particleCount - e.particleCount
      attributesNeedRefresh := true }
    (g, e.onRemove, [])

/-- `removeEmitter` including the dynamic `instanceof` guard. -/
def removeEmitterAny (g : EmitterGroup) (arg : Option Emitter) :
    EmitterGroup × Option Emitter × List Diag :=
  match arg with
  | none => (g, none, [.errorNotEmitter])
  | some e =>
    let (g, e, ds) := g.removeEmitter e
    (g, some e, ds)

/-- `_resetBufferRanges`: reset every attribute's running dirty range
(visited in reverse key order). -/
def resetBufferRanges (g : EmitterGroup) : EmitterGroup :=
  { g with attributes :=
      attributeKeys.reverse.foldl (fun A k => A.modify k (·.resetUpdateRange)) g.attributes }

/-- `_updateBuffers`: merge one emitter's touched ranges into the
attributes' dirty ranges. -/
def updateBuffersFor (A : Attributes) (e : Emitter) : Attributes :=
  attributeKeys.reverse.foldl
    (fun A k =>
      let r := e.bufferUpdateRanges.get k
      A.modify k fun a => (a.setUpdateRange r.1 r.2).flagUpdate) A

/-- One member emitter's share of a group tick. -/
def tickEmitterStep (M : MathFns) (dt : ℚ) (st : List Emitter × Attributes × Rng)
    (e : Emitter) : List Emitter × Attributes × Rng :=
  let (acc, A, rng) := st
  let (e, A, rng) := Emitter.tick M (e, A, rng) dt
  let A := updateBuffersFor A e
  (acc ++ [e], A, rng)

/-- The post-simulation flag juggling of `tick` (dynamic usage reset,
then the one-shot full refresh). -/
def tickFlags (g : EmitterGroup) : EmitterGroup :=
  let g :=
    if g.attributesNeedDynamicReset then
      { g with
        attributes := attributeKeys.reverse.foldl
          (fun A k => A.modify k (·.resetDynamic)) g.attributes
        attributesNeedDynamicReset := false }
    else g
  if g.attributesNeedRefresh then
    { g with
      attributes := attributeKeys.reverse.foldl
        (fun A k => A.modify k (·.forceUpdateAll)) g.attributes
      attributesNeedRefresh := false
      attributesNeedDynamicReset := true }
  else g

/-- The effective time step `dt || fixedTimeStep` of a group tick. -/
def tickDelta (g : EmitterGroup) (dtArg : Option ℚ) : ℚ :=
  match dtArg with
  | some v => if v = 0 then g.fixedTimeStep else v
  | none => g.fixedTimeStep

/-- `EmitterGroup.tick`: update the time uniforms, reset every dirty
range, return immediately when nothing can change, otherwise simulate
every member emitter and merge its touched ranges. -/
def tick (M : MathFns) (g : EmitterGroup) (rng : Rng) (dtArg : Option ℚ) :
    EmitterGroup × Rng :=
  let deltaTime := g.tickDelta dtArg
  let g := { g with runTime := g.runTime + deltaTime, deltaTime := deltaTime }
  let g := g.resetBufferRanges
  if g.emitters.length = 0 ∧ g.attributesNeedRefresh = false ∧
      g.attributesNeedDynamicReset = false then (g, rng)
  else
    let (es, A, rng) := g.emitters.foldl (tickEmitterStep M deltaTime) ([], g.attributes, rng)
    let g := { g with emitters := es, attributes := A }
    (g.tickFlags, rng)

end EmitterGroup

/-- An operation of a simulation run (construction options, membership
changes and ticks). -/
inductive SimOp where
  | add (opts : EmitterOptions)
  | tickOp (dt : Option ℚ)

/-- The per-buffer contents snapshot a run produces after each step. -/
def bufferSnapshot (g : EmitterGroup) : List (List ℚ) :=
  attributeKeys.map fun k => (g.attributes.get k).rawArray

/-- One step of a simulation run (emitter uuids are assigned from a
deterministic counter). -/
def simStep (M : MathFns) (st : EmitterGroup × Rng × ℕ) (op : SimOp) :
    EmitterGroup × Rng × ℕ :=
  let (g, rng, nextId) := st
  match op with
  | .add o =>
    let e := Emitter.init nextId o
    let (g, _, rng, _) := g.addEmitter M e rng
    (g, rng, nextId + 1)
  | .tickOp dt =>
    let (g, rng) := g.tick M rng dt
    (g, rng, nextId)

/-- Run a simulation from a seed and an operation list, collecting the
buffer contents after every operation. -/
def runSim (M : MathFns) (seed : ℕ) (go : GroupOptions) (ops : List SimOp) :
    List (List (List ℚ)) :=
  let g0 := (EmitterGroup.init go).1
  (ops.foldl
    (fun (st : (EmitterGroup × Rng × ℕ) × List (List (List ℚ))) op =>
      let next := simStep M st.1 op
      (next, st.2 ++ [bufferSnapshot next.1]))
    ((g0, Rng.seed seed, 0), [])).2

/-- The simulation-control fields of an emitter: the fields that
`tick`'s inner particle loops (`_checkParticleAges`, `_resetParticle`,
`_activateParticles`) never modify. -/
structure SimCtrl where
  alive : Bool
  age : ℚ
  finishFireCount : ℕ
  isStatic : Bool
  duration : Option ℚ
  activationIndex : ℚ
  attributeOffset : ℕ
  particleCount : ℕ
  activationEnd : ℚ
  particlesPerSecond : ℚ
  activeMultiplier : ℚ
  direction : ℤ

/-- Project an emitter onto its simulation-control fields. -/
def Emitter.simCtrl (e : Emitter) : SimCtrl :=
  ⟨e.alive, e.age, e.finishFireCount, e.isStatic, e.duration, e.activationIndex,
   e.attributeOffset, e.particleCount, e.activationEnd, e.particlesPerSecond,
   e.activeMultiplier, e.direction⟩

/-- A sequence of emitter ticks (the per-emitter view of successive
group ticks). -/
def tickSeq (M : MathFns) (st : Emitter × Attributes × Rng) (dts : List ℚ) :
    Emitter × Attributes × Rng :=
  dts.foldl (Emitter.tick M) st

/-- The running dirty range obtained by a `resetUpdateRange` followed by
a sequence of `setUpdateRange` calls with finite element intervals. -/
def markRangeFold (a : ShaderAttribute) (marks : List (ℚ × ℚ)) : ShaderAttribute :=
  marks.foldl (fun x p => x.setUpdateRange (.fin p.1) (.fin p.2)) a.resetUpdateRange


/-- Emitter options whose opacity value and spread arrays have
mismatched lengths 2 and 3. -/
def mismatchedVolOpts : EmitterOptions :=
  { opacityValue := some [1, 4], opacitySpread := some [0, 0, 0] }


/-! ### Supporting lemmas -/

@[simp] theorem jsWrite_length (a : List ℚ) (i : ℚ) (v : ℚ) :
    (jsWrite a i v).length = a.length := by
  unfold jsWrite; split <;> simp

theorem Rng.random_mem (r : Rng) : 0 ≤ (r.random).1 ∧ (r.random).1 < 1 := by
  unfold Rng.random
  constructor
  · positivity
  · have h : (r.state % 8 : ℕ) < 8 := Nat.mod_lt _ (by norm_num)
    have h8 : ((r.state % 8 : ℕ) : ℚ) < 8 := by exact_mod_cast h
    exact (div_lt_one (by norm_num : (0:ℚ) < 8)).mpr h8

@[simp] theorem Float32ArrayHelper.setVec3Components_length (h : Float32ArrayHelper) (index x y z : ℚ) :
    (h.setVec3Components index x y z).array.length = h.array.length := by
  simp [Float32ArrayHelper.setVec3Components]

@[simp] theorem Float32ArrayHelper.setVec4Components_length (h : Float32ArrayHelper) (index x y z w : ℚ) :
    (h.setVec4Components index x y z w).array.length = h.array.length := by
  simp [Float32ArrayHelper.setVec4Components]

@[simp] theorem Attributes.get_set_same (A : Attributes) (k : AttrKey) (a : ShaderAttribute) :
    (A.set k a).get k = a := by
  cases k <;> rfl

theorem Attributes.get_set_other (A : Attributes) (k k' : AttrKey) (a : ShaderAttribute) (h : k ≠ k') :
    (A.set k a).get k' = A.get k' := by
  cases k <;> cases k' <;> first | rfl | exact absurd rfl h


theorem filterMap_filter_range (l : List ℚ) (s e : ℕ) (hse : s ≤ e) :
    (((List.range l.length).filter fun i => decide (i < s) || decide (e ≤ i)).filterMap
      l.get?) = l.take s ++ l.drop e := by
  induction l generalizing s e with
  | nil => simp
  | cons x xs ih =>
    have hlen : (x :: xs).length = xs.length + 1 := rfl
    rw [hlen, List.range_succ_eq_map, List.filter_cons]
    have hmap : (List.map Nat.succ (List.range xs.length)).filter
        (fun i => decide (i < s) || decide (e ≤ i)) =
        List.map Nat.succ ((List.range xs.length).filter
          (fun i => decide (i < s - 1) || decide (e - 1 ≤ i))) := by
      rw [List.filter_map]
      congr 1
      apply List.filter_congr
      intro i _
      simp only [Function.comp_apply]
      congr 1
      · exact decide_eq_decide.mpr (by omega)
      · exact decide_eq_decide.mpr (by omega)
    have hfm : ((List.map Nat.succ ((List.range xs.length).filter
        (fun i => decide (i < s - 1) || decide (e - 1 ≤ i)))).filterMap (x :: xs).get?) =
        (((List.range xs.length).filter
          (fun i => decide (i < s - 1) || decide (e - 1 ≤ i))).filterMap xs.get?) := by
      rw [List.filterMap_map]
      congr 1
    rcases s with _ | s'
    · rcases e with _ | e'
      · have hc : (decide ((0:ℕ) < 0) || decide ((0:ℕ) ≤ 0)) = true := by decide
        rw [hc, if_pos rfl, List.filterMap_cons]
        have hx : (x :: xs).get? 0 = some x := rfl
        rw [hx, hmap, hfm, ih _ _ (by omega)]
        simp
      · have hc : (decide ((0:ℕ) < 0) || decide (e' + 1 ≤ 0)) = false := by
          simp
        rw [hc, if_neg (by simp), hmap, hfm, ih _ _ (by omega)]
        simp [Nat.succ_sub_one]
    · have he' : ∃ e'', e = e'' + 1 := ⟨e - 1, by omega⟩
      obtain ⟨e', rfl⟩ := he'
      have hc : (decide ((0:ℕ) < s' + 1) || decide (e' + 1 ≤ 0)) = true := by
        simp
      rw [hc, if_pos rfl, List.filterMap_cons]
      have hx : (x :: xs).get? 0 = some x := rfl
      rw [hx, hmap, hfm, ih _ _ (by omega)]
      simp [Nat.succ_sub_one]

theorem setFromArray_zero (h : Float32ArrayHelper) (data : List ℚ) :
    (h.setFromArray 0 data).array = data := by
  unfold Float32ArrayHelper.setFromArray
  simp only [Nat.zero_add, List.take_zero, List.nil_append]
  split
  · next hgt =>
    have hlen : (h.grow data.length).array.length = data.length := by
      simp [Float32ArrayHelper.grow]
      omega
    rw [List.drop_eq_nil_of_le (by omega), List.append_nil]
  · split
    · next hlt =>
      have hlen : (h.shrink data.length).array.length = data.length := by
        simp [Float32ArrayHelper.shrink]
        omega
      rw [List.drop_eq_nil_of_le (by omega), List.append_nil]
    · next h1 h2 =>
      have hlen : h.array.length = data.length := by omega
      rw [List.drop_eq_nil_of_le (by omega), List.append_nil]

theorem splice_array_eq (h : Float32ArrayHelper) (s f : ℕ) (hsf : s ≤ f) :
    (h.splice s f).array =
      h.array.take (s * h.itemSize) ++ h.array.drop (f * h.itemSize) := by
  unfold Float32ArrayHelper.splice
  rw [setFromArray_zero]
  have := filterMap_filter_range h.array (s * h.itemSize) (f * h.itemSize)
    (Nat.mul_le_mul_right _ hsf)
  simpa using this

theorem interpolateArrayG_length {α : Type} (lerpFn : α → α → ℚ → α) (dflt : α)
    (src : List α) (newLength : ℕ) (h2 : 2 ≤ newLength) :
    (utils.interpolateArrayG lerpFn dflt src newLength).length = newLength := by
  simp [utils.interpolateArrayG]
  omega

theorem ensureVOLG_length {α β : Type} (lerpA : α → α → ℚ → α) (da : α)
    (lerpB : β → β → ℚ → β) (db : β) (value : List α) (spread : List β) :
    (utils.ensureValueOverLifetimeComplianceG lerpA da lerpB db value spread
      valueOverLifetimeLength valueOverLifetimeLength).1.length = valueOverLifetimeLength ∧
    (utils.ensureValueOverLifetimeComplianceG lerpA da lerpB db value spread
      valueOverLifetimeLength valueOverLifetimeLength).2.length = valueOverLifetimeLength := by
  unfold utils.ensureValueOverLifetimeComplianceG
  have hv : ∀ L : ℕ, utils.clampNat L 4 4 = 4 := by
    intro L
    unfold utils.clampNat
    omega
  simp only [valueOverLifetimeLength, show (if (4:ℕ) = 0 then 3 else 4) = 4 from rfl, hv,
    Nat.max_self]
  constructor
  · split
    · exact interpolateArrayG_length _ _ _ _ (by omega)
    · omega
  · split
    · exact interpolateArrayG_length _ _ _ _ (by omega)
    · omega

theorem ShaderAttribute.tySetVec3_getLength (a : ShaderAttribute) (i x y z : ℚ) :
    (a.tySetVec3 i x y z).getLength = a.getLength := by
  unfold ShaderAttribute.tySetVec3 ShaderAttribute.getLength
  cases h : a.typedArray <;> simp [h]

theorem ShaderAttribute.tySetVec4_getLength (a : ShaderAttribute) (i x y z w : ℚ) :
    (a.tySetVec4 i x y z w).getLength = a.getLength := by
  unfold ShaderAttribute.tySetVec4 ShaderAttribute.getLength
  cases h : a.typedArray <;> simp [h]

theorem ShaderAttribute.tyWriteRaw_getLength (a : ShaderAttribute) (i v : ℚ) :
    (a.tyWriteRaw i v).getLength = a.getLength := by
  unfold ShaderAttribute.tyWriteRaw ShaderAttribute.getLength
  cases h : a.typedArray <;> simp [h]

theorem ShaderAttribute.rawArray_length (a : ShaderAttribute) :
    a.rawArray.length = a.getLength := by
  unfold ShaderAttribute.rawArray ShaderAttribute.getLength
  cases h : a.typedArray <;> simp [h]

theorem utils.randomVector3_getLength (rng : Rng) (attr : ShaderAttribute) (index : ℚ)
    (base spread : V3) (sc : Option V3) :
    (utils.randomVector3 rng attr index base spread sc).1.getLength = attr.getLength := by
  unfold utils.randomVector3
  rcases h1 : rng.random with ⟨r1, rng1⟩
  rcases h2 : rng1.random with ⟨r2, rng2⟩
  rcases h3 : rng2.random with ⟨r3, rng3⟩
  cases sc <;> exact ShaderAttribute.tySetVec3_getLength _ _ _ _ _

theorem utils.randomVector3OnLine_getLength (rng : Rng) (attr : ShaderAttribute) (index : ℚ)
    (s f : V3) :
    (utils.randomVector3OnLine rng attr index s f).1.getLength = attr.getLength := by
  unfold utils.randomVector3OnLine
  rcases h1 : rng.random with ⟨r1, rng1⟩
  exact ShaderAttribute.tySetVec3_getLength _ _ _ _ _

theorem utils.randomVector3OnSphere_getLength (M : MathFns) (rng : Rng)
    (attr : ShaderAttribute) (index : ℚ) (base : V3) (radius radiusSpread : ℚ)
    (radiusScale : V3) (radiusSpreadClamp : ℚ) :
    (utils.randomVector3OnSphere M rng attr index base radius radiusSpread radiusScale
      radiusSpreadClamp).1.getLength = attr.getLength := by
  unfold utils.randomVector3OnSphere
  rcases h1 : rng.random with ⟨r1, rng1⟩
  rcases h2 : rng1.random with ⟨r2, rng2⟩
  rcases h3 : utils.randomFloat rng2 radius radiusSpread with ⟨rand, rng3⟩
  exact ShaderAttribute.tySetVec3_getLength _ _ _ _ _

theorem utils.randomVector3OnDisc_getLength (M : MathFns) (rng : Rng)
    (attr : ShaderAttribute) (index : ℚ) (base : V3) (radius radiusSpread : ℚ)
    (radiusScale : V3) (radiusSpreadClamp : ℚ) :
    (utils.randomVector3OnDisc M rng attr index base radius radiusSpread radiusScale
      radiusSpreadClamp).1.getLength = attr.getLength := by
  unfold utils.randomVector3OnDisc
  rcases h1 : rng.random with ⟨r1, rng1⟩
  rcases h2 : utils.randomFloat rng1 radius radiusSpread with ⟨rand, rng2⟩
  exact ShaderAttribute.tySetVec3_getLength _ _ _ _ _

theorem utils.randomDirectionVector3OnSphere_getLength (M : MathFns) (rng : Rng)
    (attr : ShaderAttribute) (index posX posY posZ : ℚ) (emitterPosition : V3)
    (speed speedSpread : ℚ) :
    (utils.randomDirectionVector3OnSphere M rng attr index posX posY posZ emitterPosition
      speed speedSpread).1.getLength = attr.getLength := by
  unfold utils.randomDirectionVector3OnSphere
  rcases h1 : utils.randomFloat rng speed speedSpread with ⟨m, rng1⟩
  exact ShaderAttribute.tySetVec3_getLength _ _ _ _ _

theorem utils.randomDirectionVector3OnDisc_getLength (M : MathFns) (rng : Rng)
    (attr : ShaderAttribute) (index posX posY posZ : ℚ) (emitterPosition : V3)
    (speed speedSpread : ℚ) :
    (utils.randomDirectionVector3OnDisc M rng attr index posX posY posZ emitterPosition
      speed speedSpread).1.getLength = attr.getLength := by
  unfold utils.randomDirectionVector3OnDisc
  rcases h1 : utils.randomFloat rng speed speedSpread with ⟨m, rng1⟩
  exact ShaderAttribute.tySetVec3_getLength _ _ _ _ _

theorem utils.randomColorAsHex_getLength (rng : Rng) (attr : ShaderAttribute) (index : ℚ)
    (base : List JsColor) (spread : List V3) :
    (utils.randomColorAsHex rng attr index base spread).1.getLength = attr.getLength := by
  unfold utils.randomColorAsHex
  exact ShaderAttribute.tySetVec4_getLength _ _ _ _ _ _

theorem Attributes.getLength_set (A : Attributes) (k k' : AttrKey) (a : ShaderAttribute)
    (h : a.getLength = (A.get k).getLength) :
    ((A.set k a).get k').getLength = (A.get k').getLength := by
  by_cases hk : k = k'
  · subst hk
    rw [Attributes.get_set_same]
    exact h
  · rw [Attributes.get_set_other A k k' a hk]

theorem Attributes.getLength_modify (A : Attributes) (k k' : AttrKey)
    (f : ShaderAttribute → ShaderAttribute)
    (hf : ∀ a, (f a).getLength = a.getLength) :
    ((A.modify k f).get k').getLength = (A.get k').getLength := by
  unfold Attributes.modify
  exact Attributes.getLength_set A k k' _ (hf _)

theorem Emitter.assignPositionValue_getLength (M : MathFns) (e : Emitter) (A : Attributes)
    (rng : Rng) (index : ℚ) (k : AttrKey) :
    ((e.assignPositionValue M A rng index).1.get k).getLength = (A.get k).getLength := by
  unfold Emitter.assignPositionValue
  dsimp only
  cases h : e.position.distribution <;> dsimp only
  case BOX => exact Attributes.getLength_set A _ k _ (utils.randomVector3_getLength _ _ _ _ _ _)
  case SPHERE =>
    exact Attributes.getLength_set A _ k _
      (utils.randomVector3OnSphere_getLength _ _ _ _ _ _ _ _ _)
  case DISC =>
    exact Attributes.getLength_set A _ k _
      (utils.randomVector3OnDisc_getLength _ _ _ _ _ _ _ _ _)
  case LINE =>
    exact Attributes.getLength_set A _ k _ (utils.randomVector3OnLine_getLength _ _ _ _ _)

theorem Attributes.getLength_modify_tyWriteRaw (A : Attributes) (k k' : AttrKey) (i v : ℚ) :
    ((A.modify k (·.tyWriteRaw i v)).get k').getLength = (A.get k').getLength :=
  Attributes.getLength_modify A k k' _ (fun a => ShaderAttribute.tyWriteRaw_getLength a i v)

theorem Attributes.getLength_modify_tySetVec3 (A : Attributes) (k k' : AttrKey)
    (i x y z : ℚ) :
    ((A.modify k (·.tySetVec3 i x y z)).get k').getLength = (A.get k').getLength :=
  Attributes.getLength_modify A k k' _ (fun a => ShaderAttribute.tySetVec3_getLength a i x y z)

theorem Attributes.getLength_modify_tySetVec4 (A : Attributes) (k k' : AttrKey)
    (i x y z w : ℚ) :
    ((A.modify k (·.tySetVec4 i x y z w)).get k').getLength = (A.get k').getLength :=
  Attributes.getLength_modify A k k' _
    (fun a => ShaderAttribute.tySetVec4_getLength a i x y z w)

theorem Emitter.assignForceRadial_getLength (M : MathFns) (e : Emitter) (A : Attributes)
    (rng : Rng) (index : ℚ) (fk : ForceKey) (disc : Bool) (k : AttrKey) :
    ((e.assignForceRadial M A rng index fk disc).1.get k).getLength = (A.get k).getLength := by
  unfold Emitter.assignForceRadial
  dsimp only
  split
  · exact Attributes.getLength_set A _ k _
      (utils.randomDirectionVector3OnDisc_getLength _ _ _ _ _ _ _ _ _ _)
  · exact Attributes.getLength_set A _ k _
      (utils.randomDirectionVector3OnSphere_getLength _ _ _ _ _ _ _ _ _ _)

theorem Emitter.assignForceValue_getLength (M : MathFns) (e : Emitter) (A : Attributes)
    (rng : Rng) (index : ℚ) (fk : ForceKey) (k : AttrKey) :
    ((e.assignForceValue M A rng index fk).1.get k).getLength = (A.get k).getLength := by
  unfold Emitter.assignForceValue
  dsimp only
  cases h : (e.forceChannelOf fk).distribution <;> dsimp only
  case BOX =>
    split
    · exact (Attributes.getLength_modify_tyWriteRaw _ _ k _ _).trans
        (Attributes.getLength_set A _ k _ (utils.randomVector3_getLength _ _ _ _ _ _))
    · exact Attributes.getLength_set A _ k _ (utils.randomVector3_getLength _ _ _ _ _ _)
  case SPHERE =>
    split
    · exact (Attributes.getLength_modify_tyWriteRaw _ _ k _ _).trans
        (Emitter.assignForceRadial_getLength M e A rng index fk false k)
    · exact Emitter.assignForceRadial_getLength M e A rng index fk false k
  case DISC =>
    split
    · exact (Attributes.getLength_modify_tyWriteRaw _ _ k _ _).trans
        (Emitter.assignForceRadial_getLength M e A rng index fk true k)
    · exact Emitter.assignForceRadial_getLength M e A rng index fk true k
  case LINE =>
    split
    · exact (Attributes.getLength_modify_tyWriteRaw _ _ k _ _).trans
        (Attributes.getLength_set A _ k _ (utils.randomVector3OnLine_getLength _ _ _ _ _))
    · exact Attributes.getLength_set A _ k _ (utils.randomVector3OnLine_getLength _ _ _ _ _)

theorem Emitter.assignAbsLifetimeValue_getLength (e : Emitter) (A : Attributes) (rng : Rng)
    (index : ℚ) (lk : LifeKey) (k : AttrKey) :
    ((e.assignAbsLifetimeValue A rng index lk).1.get k).getLength = (A.get k).getLength := by
  unfold Emitter.assignAbsLifetimeValue
  dsimp only
  split
  · exact Attributes.getLength_set A _ k _ (ShaderAttribute.tySetVec4_getLength _ _ _ _ _ _)
  · exact Attributes.getLength_set A _ k _ (ShaderAttribute.tySetVec4_getLength _ _ _ _ _ _)

theorem Emitter.assignAngleValue_getLength (e : Emitter) (A : Attributes) (rng : Rng)
    (index : ℚ) (k : AttrKey) :
    ((e.assignAngleValue A rng index).1.get k).getLength = (A.get k).getLength := by
  unfold Emitter.assignAngleValue
  dsimp only
  split
  · exact Attributes.getLength_set A _ k _ (ShaderAttribute.tySetVec4_getLength _ _ _ _ _ _)
  · exact Attributes.getLength_set A _ k _ (ShaderAttribute.tySetVec4_getLength _ _ _ _ _ _)

theorem Emitter.assignParamsValue_getLength (e : Emitter) (A : Attributes) (rng : Rng)
    (index : ℚ) (k : AttrKey) :
    ((e.assignParamsValue A rng index).1.get k).getLength = (A.get k).getLength := by
  unfold Emitter.assignParamsValue
  exact Attributes.getLength_modify_tySetVec4 A _ k _ _ _ _ _

theorem Emitter.assignOrbitValue_getLength (M : MathFns) (e : Emitter) (A : Attributes)
    (rng : Rng) (index : ℚ) (k : AttrKey) :
    ((e.assignOrbitValue M A rng index).1.get k).getLength = (A.get k).getLength := by
  unfold Emitter.assignOrbitValue
  exact (Attributes.getLength_modify_tySetVec3 _ _ k _ _ _ _).trans
    (Attributes.getLength_modify_tySetVec3 A _ k _ _ _ _)

theorem Emitter.assignRotationValue_getLength (M : MathFns) (e : Emitter) (A : Attributes)
    (rng : Rng) (index : ℚ) (k : AttrKey) :
    ((e.assignRotationValue M A rng index).1.get k).getLength = (A.get k).getLength := by
  unfold Emitter.assignRotationValue
  exact Attributes.getLength_modify_tySetVec3 A _ k _ _ _ _

theorem Emitter.assignColorValue_getLength (e : Emitter) (A : Attributes) (rng : Rng)
    (index : ℚ) (k : AttrKey) :
    ((e.assignColorValue A rng index).1.get k).getLength = (A.get k).getLength := by
  unfold Emitter.assignColorValue
  exact Attributes.getLength_set A _ k _ (utils.randomColorAsHex_getLength _ _ _ _ _)

theorem EmitterGroup.assignAllForSlot_getLength (M : MathFns) (e : Emitter) (st : Attributes × Rng)
    (i : ℚ) (k : AttrKey) :
    ((EmitterGroup.assignAllForSlot M e st i).1.get k).getLength = (st.1.get k).getLength := by
  obtain ⟨A, rng⟩ := st
  unfold EmitterGroup.assignAllForSlot
  dsimp only
  exact (Emitter.assignColorValue_getLength _ _ _ _ _).trans
    ((Emitter.assignParamsValue_getLength _ _ _ _ _).trans
    ((Emitter.assignRotationValue_getLength _ _ _ _ _ _).trans
    ((Emitter.assignOrbitValue_getLength _ _ _ _ _ _).trans
    ((Emitter.assignAngleValue_getLength _ _ _ _ _).trans
    ((Emitter.assignAbsLifetimeValue_getLength _ _ _ _ _ _).trans
    ((Emitter.assignAbsLifetimeValue_getLength _ _ _ _ _ _).trans
    ((Emitter.assignForceValue_getLength _ _ _ _ _ _ _).trans
    ((Emitter.assignForceValue_getLength _ _ _ _ _ _ _).trans
    (Emitter.assignPositionValue_getLength _ _ _ _ _ _)))))))))

theorem EmitterGroup.assignFold_getLength (M : MathFns) (e : Emitter) (l : List ℕ) (start : ℕ)
    (st : Attributes × Rng) (k : AttrKey) :
    ((l.foldl (fun st j => EmitterGroup.assignAllForSlot M e st ((start + j : ℕ) : ℚ)) st).1.get
      k).getLength = (st.1.get k).getLength := by
  induction l generalizing st with
  | nil => rfl
  | cons i l ih => rw [List.foldl_cons, ih, EmitterGroup.assignAllForSlot_getLength]

theorem jsRead_nat_oob (l : List ℚ) (n : ℕ) (h : l.length ≤ n) :
    jsRead l (n : ℚ) = none := by
  unfold jsRead
  rw [if_pos (by simp)]
  have h2 : (n : ℚ).num.toNat = n := by simp
  rw [h2]
  exact List.get?_eq_none.mpr h

theorem ShaderAttribute.read_oob (a : ShaderAttribute) (n : ℕ) (h : a.getLength ≤ n) :
    jsRead a.rawArray (n : ℚ) = none := by
  apply jsRead_nat_oob
  rw [ShaderAttribute.rawArray_length]
  exact h

theorem ShaderAttribute.createBufferAttribute_none_getLength (a : ShaderAttribute) (sz : ℕ)
    (h : a.typedArray = none) :
    (a.createBufferAttribute sz).getLength = sz * a.itemSize := by
  unfold ShaderAttribute.createBufferAttribute ShaderAttribute.ensureFloat32ArrayWithSizeExists
  rw [h]
  dsimp only
  split <;> simp [ShaderAttribute.getLength, Float32ArrayHelper.mk']

theorem Attributes.init_get_typedArray (k : AttrKey) :
    (Attributes.init.get k).typedArray = none := by
  cases k <;> rfl

theorem Attributes.init_get_itemSize (k : AttrKey) :
    (Attributes.init.get k).itemSize = k.itemSize := by
  cases k <;> rfl

theorem EmitterGroup.createFold_get (A : Attributes) (sz : ℕ) (k : AttrKey) :
    ((attributeKeys.foldl (fun A k => A.modify k (·.createBufferAttribute sz)) A).get k) =
      (A.get k).createBufferAttribute sz := by
  cases k <;> rfl

theorem EmitterGroup.applyAttributesToGeometry_getLength (A : Attributes) (k : AttrKey) :
    ((EmitterGroup.applyAttributesToGeometry A).get k).getLength = (A.get k).getLength := by
  cases k <;> rfl

theorem EmitterGroup.updateDefinesStep_core (g : EmitterGroup) (e : Emitter) :
    (EmitterGroup.updateDefinesStep g e).attributes = g.attributes ∧
    (EmitterGroup.updateDefinesStep g e).particleCount = g.particleCount ∧
    (EmitterGroup.updateDefinesStep g e).emitters = g.emitters ∧
    (EmitterGroup.updateDefinesStep g e).emitterIDs = g.emitterIDs := by
  unfold EmitterGroup.updateDefinesStep
  dsimp only
  refine ⟨?_, ?_, ?_, ?_⟩ <;> split <;> rfl

theorem EmitterGroup.foldl_updateDefinesStep_core (l : List Emitter) (g : EmitterGroup) :
    (l.foldl EmitterGroup.updateDefinesStep g).attributes = g.attributes ∧
    (l.foldl EmitterGroup.updateDefinesStep g).particleCount = g.particleCount ∧
    (l.foldl EmitterGroup.updateDefinesStep g).emitters = g.emitters ∧
    (l.foldl EmitterGroup.updateDefinesStep g).emitterIDs = g.emitterIDs := by
  induction l generalizing g with
  | nil => exact ⟨rfl, rfl, rfl, rfl⟩
  | cons e l ih =>
    obtain ⟨a1, a2, a3, a4⟩ := ih (EmitterGroup.updateDefinesStep g e)
    obtain ⟨b1, b2, b3, b4⟩ := EmitterGroup.updateDefinesStep_core g e
    exact ⟨a1.trans b1, a2.trans b2, a3.trans b3, a4.trans b4⟩

theorem EmitterGroup.updateDefines_attributes (g : EmitterGroup) :
    (EmitterGroup.updateDefines g).attributes = g.attributes :=
  (EmitterGroup.foldl_updateDefinesStep_core g.emitters.reverse g).1

theorem EmitterGroup.updateDefines_particleCount (g : EmitterGroup) :
    (EmitterGroup.updateDefines g).particleCount = g.particleCount :=
  (EmitterGroup.foldl_updateDefinesStep_core g.emitters.reverse g).2.1

theorem EmitterGroup.updateDefines_emitterIDs (g : EmitterGroup) :
    (EmitterGroup.updateDefines g).emitterIDs = g.emitterIDs :=
  (EmitterGroup.foldl_updateDefinesStep_core g.emitters.reverse g).2.2.2

theorem Emitter.calculatePPSValue_uuid (e : Emitter) (x : ℚ) :
    (e.calculatePPSValue x).uuid = e.uuid := by
  unfold Emitter.calculatePPSValue
  split
  · split <;> rfl
  · rfl

theorem jsRead_nat (l : List ℚ) (n : ℕ) : jsRead l (n : ℚ) = l.get? n := by
  unfold jsRead
  rw [if_pos (by simp)]
  have h2 : (n : ℚ).num.toNat = n := by simp
  rw [h2]

theorem jsWrite_cast (l : List ℚ) (q : ℚ) (n : ℕ) (hq : q = (n : ℚ)) (v : ℚ) :
    jsWrite l q v = if n < l.length then l.set n v else l := by
  subst hq
  unfold jsWrite
  have h1 : ((n : ℚ).den = 1) := by simp
  have h2 : (0 : ℤ) ≤ (n : ℚ).num := by simp
  have h3 : (n : ℚ).num.toNat = n := by simp
  by_cases h : n < l.length
  · rw [if_pos ⟨h1, h2, by rw [h3]; exact h⟩, h3, if_pos h]
  · rw [if_neg, if_neg h]
    rintro ⟨-, -, hlt⟩
    rw [h3] at hlt
    exact h hlt

theorem get?_set' (l : List ℚ) (i j : ℕ) (v : ℚ) :
    (l.set i v).get? j = if j = i ∧ i < l.length then some v else l.get? j := by
  by_cases h : j = i
  · subst h
    by_cases h2 : j < l.length
    · rw [if_pos ⟨rfl, h2⟩, List.get?_set_eq]
      obtain ⟨a, ha⟩ : ∃ a, l.get? j = some a := by
        rw [List.get?_eq_get h2]
        exact ⟨_, rfl⟩
      rw [ha]
      rfl
    · rw [if_neg (by omega), List.get?_eq_none.mpr (by simp; omega),
        List.get?_eq_none.mpr (by omega)]
  · rw [if_neg (by tauto), List.get?_set_ne _ _ (fun hij => h hij.symm)]

theorem ShaderAttribute.tyWriteRaw_rawArray (a : ShaderAttribute) (i v : ℚ) :
    (a.tyWriteRaw i v).rawArray = jsWrite a.rawArray i v := by
  cases h : a.typedArray with
  | none =>
    simp only [ShaderAttribute.tyWriteRaw, ShaderAttribute.rawArray, h]
    unfold jsWrite
    rw [if_neg]
    rintro ⟨-, -, hlt⟩
    simp at hlt
  | some hh =>
    simp only [ShaderAttribute.tyWriteRaw, ShaderAttribute.rawArray, h]

theorem tyZeroFold_rawArray (ks : List ℕ) (start : ℕ) (a : ShaderAttribute) :
    (ks.foldl (fun a k => (a.tyWriteRaw (((start + k : ℕ) : ℚ) * 4) 0).tyWriteRaw
        (((start + k : ℕ) : ℚ) * 4 + 1) 0) a).rawArray =
      ks.foldl (fun l k => jsWrite (jsWrite l (((start + k : ℕ) : ℚ) * 4) 0)
        (((start + k : ℕ) : ℚ) * 4 + 1) 0) a.rawArray := by
  induction ks generalizing a with
  | nil => rfl
  | cons k ks ih =>
    rw [List.foldl_cons, List.foldl_cons, ih, ShaderAttribute.tyWriteRaw_rawArray,
      ShaderAttribute.tyWriteRaw_rawArray]

theorem zeroWritesList_length (start n : ℕ) (l : List ℚ) :
    ((List.range n).foldl (fun l k => jsWrite (jsWrite l (((start + k : ℕ) : ℚ) * 4) 0)
        (((start + k : ℕ) : ℚ) * 4 + 1) 0) l).length = l.length := by
  induction n with
  | zero => rfl
  | succ n ih =>
    rw [List.range_succ, List.foldl_append, List.foldl_cons, List.foldl_nil,
      jsWrite_length, jsWrite_length, ih]

theorem jsWrite_cast_get? (l : List ℚ) (q : ℚ) (n : ℕ) (hq : q = (n : ℚ)) (v : ℚ) (m : ℕ) :
    (jsWrite l q v).get? m = if m = n ∧ n < l.length then some v else l.get? m := by
  rw [jsWrite_cast l q n hq v]
  by_cases h : n < l.length
  · rw [if_pos h, get?_set']
  · rw [if_neg h, if_neg (by tauto)]

theorem zeroWritesList_get? (start n : ℕ) (l : List ℚ) (m : ℕ) :
    ((List.range n).foldl (fun l k => jsWrite (jsWrite l (((start + k : ℕ) : ℚ) * 4) 0)
        (((start + k : ℕ) : ℚ) * 4 + 1) 0) l).get? m =
      if m < l.length ∧ 4 * start ≤ m ∧ m < 4 * (start + n) ∧ m % 4 ≤ 1 then some 0
      else l.get? m := by
  induction n with
  | zero =>
    rw [if_neg (by omega)]
    rfl
  | succ n ih =>
    rw [List.range_succ, List.foldl_append, List.foldl_cons, List.foldl_nil]
    rw [jsWrite_cast_get? _ _ ((start + n) * 4 + 1) (by push_cast; ring) 0 m]
    rw [jsWrite_cast_get? _ _ ((start + n) * 4) (by push_cast; ring) 0 m]
    simp only [jsWrite_length, zeroWritesList_length]
    rw [ih]
    by_cases h1 : m = (start + n) * 4 + 1 ∧ (start + n) * 4 + 1 < l.length
    · rw [if_pos h1, if_pos (by omega)]
    · rw [if_neg h1]
      by_cases h2 : m = (start + n) * 4 ∧ (start + n) * 4 < l.length
      · rw [if_pos h2, if_pos (by omega)]
      · rw [if_neg h2]
        by_cases h3 : m < l.length ∧ 4 * start ≤ m ∧ m < 4 * (start + n) ∧ m % 4 ≤ 1
        · rw [if_pos h3, if_pos (by omega)]
        · rw [if_neg h3, if_neg]
          intro hc
          -- m is in the widened window but not the old one and not one of the
          -- two fresh component indices: impossible
          rcases Nat.lt_or_ge m (4 * (start + n)) with hm | hm
          · exact h3 ⟨hc.1, hc.2.1, hm, hc.2.2.2⟩
          · have : m = (start + n) * 4 ∨ m = (start + n) * 4 + 1 := by omega
            rcases this with rfl | rfl
            · exact h2 ⟨rfl, by omega⟩
            · exact h1 ⟨rfl, by omega⟩

theorem EmitterGroup.zeroParamsRange_get_params_get? (A : Attributes) (start finish m : ℕ) :
    ((EmitterGroup.zeroParamsRange A start finish).get .params).rawArray.get? m =
      if m < (A.get .params).rawArray.length ∧ 4 * start ≤ m ∧
          m < 4 * (start + (finish - start)) ∧ m % 4 ≤ 1 then some 0
      else (A.get .params).rawArray.get? m := by
  unfold EmitterGroup.zeroParamsRange
  rw [Attributes.modify, Attributes.get_set_same]
  dsimp only
  rw [tyZeroFold_rawArray, zeroWritesList_get?]

theorem EmitterGroup.zeroParamsRange_get_params_length (A : Attributes) (start finish : ℕ) :
    ((EmitterGroup.zeroParamsRange A start finish).get .params).rawArray.length =
      (A.get .params).rawArray.length := by
  unfold EmitterGroup.zeroParamsRange
  rw [Attributes.modify, Attributes.get_set_same]
  dsimp only
  rw [tyZeroFold_rawArray, zeroWritesList_length]

theorem EmitterGroup.zeroParamsRange_get_other (A : Attributes) (s f : ℕ) (k : AttrKey)
    (hk : ¬ k = AttrKey.params) :
    (EmitterGroup.zeroParamsRange A s f).get k = A.get k := by
  unfold EmitterGroup.zeroParamsRange
  rw [Attributes.modify, Attributes.get_set_other _ _ _ _ (fun h => hk h.symm)]

theorem EmitterGroup.spliceFold_get (A : Attributes) (s f : ℕ) (k : AttrKey) :
    ((attributeKeys.foldl
      (fun A k => if k = .params then A else A.modify k (·.splice s f)) A).get k) =
      (if k = .params then A.get k else (A.get k).splice s f) := by
  cases k <;> rfl

theorem ShaderAttribute.splice_rawArray (a : ShaderAttribute) (s f is : ℕ)
    (his : a.typedArray.map Float32ArrayHelper.itemSize = some is) (hsf : s ≤ f) :
    (a.splice s f).rawArray = a.rawArray.take (s * is) ++ a.rawArray.drop (f * is) := by
  cases ha : a.typedArray with
  | none => rw [ha] at his; simp at his
  | some h =>
    rw [ha] at his
    obtain rfl : h.itemSize = is := by simpa using his
    have hraw : a.rawArray = h.array := by
      unfold ShaderAttribute.rawArray
      rw [ha]
    unfold ShaderAttribute.splice ShaderAttribute.forceUpdateAll
    rw [ha]
    dsimp only
    split
    all_goals
      show (h.splice s f).array =
        a.rawArray.take (s * h.itemSize) ++ a.rawArray.drop (f * h.itemSize)
      rw [splice_array_eq h s f hsf, hraw]

theorem Emitter.updateAttributeUpdateRange_simCtrl (e : Emitter) (k : AttrKey) (i : ℚ) :
    (e.updateAttributeUpdateRange k i).simCtrl = e.simCtrl := rfl

theorem Emitter.checkAgeStep_simCtrl (dt : ℚ) (st : Emitter × Attributes) (i : ℕ) :
    (Emitter.checkAgeStep dt st i).1.simCtrl = st.1.simCtrl := by
  obtain ⟨e, A⟩ := st
  unfold Emitter.checkAgeStep
  dsimp only
  split
  · rfl
  · split
    · rfl
    · split <;> split <;> rfl

theorem foldl_pair_simCtrl {α : Type} (f : Emitter × Attributes → α → Emitter × Attributes)
    (hf : ∀ st i, (f st i).1.simCtrl = st.1.simCtrl) (l : List α) (st : Emitter × Attributes) :
    (l.foldl f st).1.simCtrl = st.1.simCtrl := by
  induction l generalizing st with
  | nil => rfl
  | cons i l ih => rw [List.foldl_cons, ih (f st i), hf]

theorem foldl_triple_simCtrl {α : Type}
    (f : Emitter × Attributes × Rng → α → Emitter × Attributes × Rng)
    (hf : ∀ st i, (f st i).1.simCtrl = st.1.simCtrl) (l : List α)
    (st : Emitter × Attributes × Rng) :
    (l.foldl f st).1.simCtrl = st.1.simCtrl := by
  induction l generalizing st with
  | nil => rfl
  | cons i l ih => rw [List.foldl_cons, ih (f st i), hf]

theorem Emitter.checkParticleAges_simCtrl (e : Emitter) (A : Attributes) (start finish : ℕ)
    (dt : ℚ) : (e.checkParticleAges A start finish dt).1.simCtrl = e.simCtrl :=
  foldl_pair_simCtrl _ (fun st i => Emitter.checkAgeStep_simCtrl dt st i) _ _

theorem Emitter.resetParticleStep_simCtrl (M : MathFns) (index : ℚ)
    (st : Emitter × Attributes × Rng) (key : AttrKey) :
    (Emitter.resetParticleStep M index st key).1.simCtrl = st.1.simCtrl := by
  obtain ⟨e, A, rng⟩ := st
  unfold Emitter.resetParticleStep
  dsimp only
  split
  · split
    · rfl
    · split <;> rfl
  · rfl

theorem Emitter.resetParticle_simCtrl (M : MathFns) (e : Emitter) (A : Attributes) (rng : Rng)
    (index : ℚ) : (e.resetParticle M A rng index).1.simCtrl = e.simCtrl :=
  foldl_triple_simCtrl _ (fun st k => Emitter.resetParticleStep_simCtrl M index st k) _ _

theorem Emitter.activateStep_simCtrl (M : MathFns) (aS dtP : ℚ)
    (st : Emitter × Attributes × Rng) (k : ℕ) :
    (Emitter.activateStep M aS dtP st k).1.simCtrl = st.1.simCtrl := by
  obtain ⟨e, A, rng⟩ := st
  unfold Emitter.activateStep
  dsimp only
  split
  · rfl
  · rw [Emitter.updateAttributeUpdateRange_simCtrl, Emitter.resetParticle_simCtrl]
    rfl

theorem Emitter.activateParticles_simCtrl (M : MathFns) (e : Emitter) (A : Attributes)
    (rng : Rng) (aS aE dtP : ℚ) :
    (e.activateParticles M A rng aS aE dtP).1.simCtrl = e.simCtrl :=
  foldl_triple_simCtrl _ (fun st k => Emitter.activateStep_simCtrl M aS dtP st k) _ _

theorem Emitter.tick_eq_body (M : MathFns) (e : Emitter) (A : Attributes) (rng : Rng)
    (dt : ℚ) (hstat : e.isStatic = false) :
    Emitter.tick M (e, A, rng) dt = Emitter.tickBody M e A rng dt := by
  simp [Emitter.tick, hstat]

theorem Emitter.tickDead_activationIndex (e : Emitter) :
    e.tickDead.activationIndex = e.activationIndex := by
  unfold Emitter.tickDead
  split <;> rfl

theorem Emitter.checkParticleAges_alive (e : Emitter) (A : Attributes) (s f : ℕ) (dt : ℚ) :
    (e.checkParticleAges A s f dt).1.alive = e.alive :=
  congrArg SimCtrl.alive (Emitter.checkParticleAges_simCtrl e A s f dt)

theorem Emitter.checkParticleAges_age (e : Emitter) (A : Attributes) (s f : ℕ) (dt : ℚ) :
    (e.checkParticleAges A s f dt).1.age = e.age :=
  congrArg SimCtrl.age (Emitter.checkParticleAges_simCtrl e A s f dt)

theorem Emitter.checkParticleAges_duration (e : Emitter) (A : Attributes) (s f : ℕ) (dt : ℚ) :
    (e.checkParticleAges A s f dt).1.duration = e.duration :=
  congrArg SimCtrl.duration (Emitter.checkParticleAges_simCtrl e A s f dt)

theorem Emitter.checkParticleAges_finishFireCount (e : Emitter) (A : Attributes) (s f : ℕ)
    (dt : ℚ) : (e.checkParticleAges A s f dt).1.finishFireCount = e.finishFireCount :=
  congrArg SimCtrl.finishFireCount (Emitter.checkParticleAges_simCtrl e A s f dt)

theorem Emitter.checkParticleAges_isStatic (e : Emitter) (A : Attributes) (s f : ℕ)
    (dt : ℚ) : (e.checkParticleAges A s f dt).1.isStatic = e.isStatic :=
  congrArg SimCtrl.isStatic (Emitter.checkParticleAges_simCtrl e A s f dt)

theorem Emitter.checkParticleAges_activationIndex (e : Emitter) (A : Attributes) (s f : ℕ)
    (dt : ℚ) : (e.checkParticleAges A s f dt).1.activationIndex = e.activationIndex :=
  congrArg SimCtrl.activationIndex (Emitter.checkParticleAges_simCtrl e A s f dt)

theorem Emitter.activateParticles_activationIndex (M : MathFns) (e : Emitter)
    (A : Attributes) (rng : Rng) (aS aE dtP : ℚ) :
    (e.activateParticles M A rng aS aE dtP).1.activationIndex = e.activationIndex :=
  congrArg SimCtrl.activationIndex (Emitter.activateParticles_simCtrl M e A rng aS aE dtP)

theorem Emitter.tick_dead_step (M : MathFns) (e : Emitter) (A : Attributes) (rng : Rng)
    (dt : ℚ) (hstat : e.isStatic = false) (hal : e.alive = false) :
    (Emitter.tick M (e, A, rng) dt).1.alive = false ∧
    (Emitter.tick M (e, A, rng) dt).1.age = 0 ∧
    (Emitter.tick M (e, A, rng) dt).1.finishFireCount = e.finishFireCount ∧
    (Emitter.tick M (e, A, rng) dt).1.isStatic = false := by
  rw [Emitter.tick_eq_body M e A rng dt hstat]
  unfold Emitter.tickBody
  dsimp only
  have hal2 : (Emitter.checkParticleAges { e with paramsInit := true } A e.attributeOffset
      (e.attributeOffset + e.particleCount) dt).1.alive = false := by
    rw [Emitter.checkParticleAges_alive]
    exact hal
  rw [if_pos hal2]
  dsimp only
  unfold Emitter.tickDead
  rw [if_pos hal2]
  refine ⟨?_, rfl, ?_, ?_⟩
  · exact hal2
  · rw [show ({ (Emitter.checkParticleAges { e with paramsInit := true } A e.attributeOffset
        (e.attributeOffset + e.particleCount) dt).1 with age := 0 } : Emitter).finishFireCount =
        (Emitter.checkParticleAges { e with paramsInit := true } A e.attributeOffset
        (e.attributeOffset + e.particleCount) dt).1.finishFireCount from rfl,
      Emitter.checkParticleAges_finishFireCount]
  · rw [show ({ (Emitter.checkParticleAges { e with paramsInit := true } A e.attributeOffset
        (e.attributeOffset + e.particleCount) dt).1 with age := 0 } : Emitter).isStatic =
        (Emitter.checkParticleAges { e with paramsInit := true } A e.attributeOffset
        (e.attributeOffset + e.particleCount) dt).1.isStatic from rfl,
      Emitter.checkParticleAges_isStatic]
    exact hstat

theorem Emitter.tickSeq_dead (M : MathFns) (dts : List ℚ) (e : Emitter) (A : Attributes)
    (rng : Rng) (hstat : e.isStatic = false) (hal : e.alive = false) :
    (tickSeq M (e, A, rng) dts).1.alive = false ∧
    (tickSeq M (e, A, rng) dts).1.isStatic = false ∧
    (tickSeq M (e, A, rng) dts).1.finishFireCount = e.finishFireCount ∧
    (tickSeq M (e, A, rng) dts).1.age = (if dts.isEmpty then e.age else 0) := by
  induction dts generalizing e A rng with
  | nil => exact ⟨hal, hstat, rfl, rfl⟩
  | cons d ds ih =>
    obtain ⟨h1, h2, h3, h4⟩ := Emitter.tick_dead_step M e A rng d hstat hal
    have hseq : tickSeq M (e, A, rng) (d :: ds) =
        tickSeq M ((Emitter.tick M (e, A, rng) d).1, (Emitter.tick M (e, A, rng) d).2.1,
          (Emitter.tick M (e, A, rng) d).2.2) ds := rfl
    rw [hseq]
    obtain ⟨g1, g2, g3, g4⟩ := ih _ _ _ h4 h1
    refine ⟨g1, g2, ?_, ?_⟩
    · rw [g3, h3]
    · rw [g4, h2]
      simp

/-! ### Claim theorems -/

/-! ### Claim theorems -/

/-- C6: for a `Float32ArrayHelper` with item size `k` holding `n`
elements, `splice(start, end)` with `0 ≤ start ≤ end ≤ n` removes the
elements of `[start, end)`: the components before `start` keep their
values and positions, the components from `end` onward follow
immediately after them in order, and the backing storage shrinks to
exactly `(n - (end - start)) * k` components. -/
theorem C6_splice_removes_range (h : Float32ArrayHelper) (n start finish : ℕ)
    (hlen : h.array.length = n * h.itemSize) (h1 : start ≤ finish) (h2 : finish ≤ n) :
    (h.splice start finish).array =
      h.array.take (start * h.itemSize) ++ h.array.drop (finish * h.itemSize) ∧
    (h.splice start finish).array.length = (n - (finish - start)) * h.itemSize := by
  have harr := splice_array_eq h start finish h1
  refine ⟨harr, ?_⟩
  rw [harr]
  have hsn : start * h.itemSize ≤ n * h.itemSize := Nat.mul_le_mul_right _ (h1.trans h2)
  have hfn : finish * h.itemSize ≤ n * h.itemSize := Nat.mul_le_mul_right _ h2
  have hsf : start * h.itemSize ≤ finish * h.itemSize := Nat.mul_le_mul_right _ h1
  have hgoal : (n - (finish - start)) * h.itemSize =
      n * h.itemSize - (finish * h.itemSize - start * h.itemSize) := by
    rw [Nat.sub_mul, Nat.sub_mul]
  rw [List.length_append, List.length_take, List.length_drop, hlen, hgoal]
  omega

theorem markRangeFold_aux (s : ℕ) (marks : List (ℚ × ℚ)) :
    ∀ (x : ShaderAttribute) (q : ℚ), x.itemSize = s → x.updateMin = XQ.fin 0 →
    x.updateMax = XQ.fin q → 0 ≤ q → (∀ p ∈ marks, 0 ≤ p.1 ∧ 0 ≤ p.2) → 1 ≤ s →
    (marks.foldl (fun x p => x.setUpdateRange (.fin p.1) (.fin p.2)) x).itemSize = s ∧
    (marks.foldl (fun x p => x.setUpdateRange (.fin p.1) (.fin p.2)) x).updateMin = XQ.fin 0 ∧
    ∃ qf, 0 ≤ qf ∧
      (marks.foldl (fun x p => x.setUpdateRange (.fin p.1) (.fin p.2)) x).updateMax = XQ.fin qf ∧
      q ≤ qf ∧ ∀ p ∈ marks, p.2 * s ≤ qf := by
  induction marks with
  | nil =>
    intro x q hit hmin hmax hq _ _
    exact ⟨hit, hmin, q, hq, hmax, le_refl q, by simp⟩
  | cons p ps ih =>
    intro x q hit hmin hmax hq hm hs
    have hp := hm p (List.mem_cons_self p ps)
    have hsq : (0:ℚ) ≤ (s:ℚ) := Nat.cast_nonneg s
    have hs1 : (1:ℚ) ≤ (s:ℚ) := by exact_mod_cast hs
    have hmin' : (x.setUpdateRange (.fin p.1) (.fin p.2)).updateMin = XQ.fin 0 := by
      simp only [ShaderAttribute.setUpdateRange, hit, hmin]
      show XQ.min (XQ.fin (p.1 * s)) (XQ.fin (0 * s)) = XQ.fin 0
      simp only [XQ.min]
      rw [zero_mul]
      congr 1
      exact min_eq_right (mul_nonneg hp.1 hsq)
    have hmax' : (x.setUpdateRange (.fin p.1) (.fin p.2)).updateMax =
        XQ.fin (Max.max (p.2 * s) (q * s)) := by
      simp only [ShaderAttribute.setUpdateRange, hit, hmax]
      rfl
    have hq' : 0 ≤ Max.max (p.2 * s) (q * s) :=
      le_trans (mul_nonneg hp.2 hsq) (le_max_left _ _)
    have hit' : (x.setUpdateRange (.fin p.1) (.fin p.2)).itemSize = s := hit
    obtain ⟨h1, h2, qf, hqf0, hqfmax, hqle, hall⟩ :=
      ih (x.setUpdateRange (.fin p.1) (.fin p.2)) (Max.max (p.2 * s) (q * s)) hit' hmin'
        hmax' hq' (fun p' hp' => hm p' (List.mem_cons_of_mem p hp')) hs
    refine ⟨h1, h2, qf, hqf0, hqfmax, ?_, ?_⟩
    · calc q = q * 1 := (mul_one q).symm
        _ ≤ q * s := by
            exact mul_le_mul_of_nonneg_left hs1 hq
        _ ≤ Max.max (p.2 * s) (q * s) := le_max_right _ _
        _ ≤ qf := hqle
    · intro p' hp'
      rcases List.mem_cons.mp hp' with h | h
      · subst h
        exact le_trans (le_trans (le_max_left _ _) (le_refl _)) hqle
      · exact hall p' h

theorem resetBufferRanges_get (g : EmitterGroup) (k : AttrKey) :
    ((g.resetBufferRanges).attributes.get k).updateMin = XQ.fin 0 ∧
    ((g.resetBufferRanges).attributes.get k).updateMax = XQ.fin 0 := by
  cases k <;> exact ⟨rfl, rfl⟩

theorem tick_no_emitters (M : MathFns) (g : EmitterGroup) (rng : Rng) (dtArg : Option ℚ)
    (hg : g.emitters = []) (h1 : g.attributesNeedRefresh = false)
    (h2 : g.attributesNeedDynamicReset = false) :
    (EmitterGroup.tick M g rng dtArg).1 =
      EmitterGroup.resetBufferRanges
        { g with runTime := g.runTime + g.tickDelta dtArg, deltaTime := g.tickDelta dtArg } := by
  unfold EmitterGroup.tick
  rw [if_pos]
  refine ⟨?_, h1, h2⟩
  simp [EmitterGroup.resetBufferRanges, hg]

/-- C1 (amended): for a shader attribute with stride `s`,
`resetUpdateRange` sets the running dirty range to the pair `(0, 0)`
(the code's empty/reset value), and after a subsequent sequence of
`setUpdateRange` calls with non-negative element intervals
`[m1, M1], ..., [mk, Mk]` the running range only covers the claimed
stride-scaled span rather than equalling it: the minimum stays pinned at
`0` (so it never rises to `s * min mi`), and the maximum is at least
`s * max Mi` but can exceed it, because each call re-multiplies the
already-scaled stored bounds by the stride.  A group tick with zero
member emitters and no pending refresh leaves every attribute's range at
the reset value `(0, 0)` (no spurious upload). -/
theorem C1_dirty_range (a : ShaderAttribute) (marks : List (ℚ × ℚ))
    (hs : 1 ≤ a.itemSize) (hm : ∀ p ∈ marks, 0 ≤ p.1 ∧ 0 ≤ p.2) :
    (a.resetUpdateRange.updateMin = XQ.fin 0 ∧ a.resetUpdateRange.updateMax = XQ.fin 0) ∧
    (markRangeFold a marks).updateMin = XQ.fin 0 ∧
    (∀ p ∈ marks, XQ.le (XQ.fin (p.2 * a.itemSize)) (markRangeFold a marks).updateMax) ∧
    (∀ (M : MathFns) (g : EmitterGroup) (rng : Rng) (dtArg : Option ℚ),
      g.emitters = [] → g.attributesNeedRefresh = false →
      g.attributesNeedDynamicReset = false →
      ∀ k, ((EmitterGroup.tick M g rng dtArg).1.attributes.get k).updateMin = XQ.fin 0 ∧
        ((EmitterGroup.tick M g rng dtArg).1.attributes.get k).updateMax = XQ.fin 0) := by
  obtain ⟨h1, h2, qf, hqf0, hqfmax, hqle, hall⟩ :=
    markRangeFold_aux a.itemSize marks a.resetUpdateRange 0 rfl rfl rfl (le_refl 0) hm hs
  refine ⟨⟨rfl, rfl⟩, h2, ?_, ?_⟩
  · intro p hp
    rw [show markRangeFold a marks =
      marks.foldl (fun x p => x.setUpdateRange (.fin p.1) (.fin p.2)) a.resetUpdateRange from rfl,
      hqfmax]
    exact hall p hp
  · intro M g rng dtArg hg hr hd k
    rw [tick_no_emitters M g rng dtArg hg hr hd]
    exact resetBufferRanges_get _ k

/-- Concrete instance of C1's theorem. -/
theorem C1_dirty_range_witness :
    ((ShaderAttribute.mk' 4).resetUpdateRange.updateMin = XQ.fin 0 ∧
      (ShaderAttribute.mk' 4).resetUpdateRange.updateMax = XQ.fin 0) ∧
    (markRangeFold (ShaderAttribute.mk' 4) [(2, 3), (5, 6)]).updateMin = XQ.fin 0 ∧
    (∀ p ∈ [((2:ℚ), (3:ℚ)), (5, 6)],
      XQ.le (XQ.fin (p.2 * (ShaderAttribute.mk' 4).itemSize))
        (markRangeFold (ShaderAttribute.mk' 4) [(2, 3), (5, 6)]).updateMax) ∧
    (∀ (M : MathFns) (g : EmitterGroup) (rng : Rng) (dtArg : Option ℚ),
      g.emitters = [] → g.attributesNeedRefresh = false →
      g.attributesNeedDynamicReset = false →
      ∀ k, ((EmitterGroup.tick M g rng dtArg).1.attributes.get k).updateMin = XQ.fin 0 ∧
        ((EmitterGroup.tick M g rng dtArg).1.attributes.get k).updateMax = XQ.fin 0) :=
  C1_dirty_range (ShaderAttribute.mk' 4) [(2, 3), (5, 6)] (by decide)
    (by intro p hp; fin_cases hp <;> constructor <;> norm_num)

/-- Counterexample to C1 as stated: with stride 4 and marks
`[2,3], [5,6]` the claim predicts the exact range `(8, 24)`; the code
instead yields `(0, 48)` (minimum pinned at zero by the reset value, and
maximum re-scaled by the stride at the second call). -/
theorem C1_dirty_range_counterexample :
    (markRangeFold (ShaderAttribute.mk' 4) [(2, 3), (5, 6)]).updateMin = XQ.fin 0 ∧
    (markRangeFold (ShaderAttribute.mk' 4) [(2, 3), (5, 6)]).updateMax = XQ.fin 48 ∧
    ¬ ((markRangeFold (ShaderAttribute.mk' 4) [(2, 3), (5, 6)]).updateMin = XQ.fin (4 * 2) ∧
       (markRangeFold (ShaderAttribute.mk' 4) [(2, 3), (5, 6)]).updateMax = XQ.fin (4 * 6)) := by
  refine ⟨?_, ?_, ?_⟩ <;> with_unfolding_all decide

/-- Concrete instance of C6's theorem. -/
theorem C6_splice_removes_range_witness :
    ((⟨2, 5, [1, 2, 3, 4, 5, 6, 7, 8, 9, 10]⟩ : Float32ArrayHelper).splice 1 3).array =
      ([1, 2, 3, 4, 5, 6, 7, 8, 9, 10] : List ℚ).take (1 * 2) ++
        ([1, 2, 3, 4, 5, 6, 7, 8, 9, 10] : List ℚ).drop (3 * 2) ∧
    ((⟨2, 5, [1, 2, 3, 4, 5, 6, 7, 8, 9, 10]⟩ : Float32ArrayHelper).splice 1 3).array.length =
      (5 - (3 - 1)) * 2 :=
  C6_splice_removes_range ⟨2, 5, [1, 2, 3, 4, 5, 6, 7, 8, 9, 10]⟩ 5 1 3 (by decide)
    (by decide) (by decide)

/-- C7: growing a helper holding `n` elements to `m > n` zero-extends
the storage preserving the first `n` elements, shrinking back to `n`
recovers the original contents exactly, and `setSize` with the
unchanged size is a no-op that emits the informational diagnostic. -/
theorem C7_setSize_roundtrip (h : Float32ArrayHelper) (n m : ℕ)
    (hk : 0 < h.itemSize) (hlen : h.array.length = n * h.itemSize) (hnm : n < m) :
    (h.setSize m).1.array.length = m * h.itemSize ∧
    (h.setSize m).1.array.take (n * h.itemSize) = h.array ∧
    (∀ j, n * h.itemSize ≤ j → j < m * h.itemSize → (h.setSize m).1.array.get? j = some 0) ∧
    ((h.setSize m).1.setSize n).1.array = h.array ∧
    (h.setSize n).1 = h ∧ (h.setSize n).2 = true := by
  have hmk : n * h.itemSize < m * h.itemSize :=
    Nat.mul_lt_mul_of_lt_of_le hnm (Nat.le_refl _) hk
  have hsetGt : ∀ (x : Float32ArrayHelper) (j : ℕ), j * x.itemSize > x.array.length →
      x.setSize j = (x.grow (j * x.itemSize), false) := by
    intro x j hj
    unfold Float32ArrayHelper.setSize
    rw [if_neg (by omega), if_pos (by omega)]
  have hsetLt : ∀ (x : Float32ArrayHelper) (j : ℕ), j * x.itemSize < x.array.length →
      x.setSize j = (x.shrink (j * x.itemSize), false) := by
    intro x j hj
    unfold Float32ArrayHelper.setSize
    rw [if_pos (by omega)]
  have hsetEq : ∀ (x : Float32ArrayHelper) (j : ℕ), j * x.itemSize = x.array.length →
      x.setSize j = (x, true) := by
    intro x j hj
    unfold Float32ArrayHelper.setSize
    rw [if_neg (by omega), if_neg (by omega)]
  have hgrow : (h.setSize m).1 = h.grow (m * h.itemSize) := by
    rw [hsetGt h m (by omega)]
  have hitem : (h.setSize m).1.itemSize = h.itemSize := by rw [hgrow]; rfl
  have harr : (h.setSize m).1.array =
      h.array ++ List.replicate (m * h.itemSize - h.array.length) 0 := by
    rw [hgrow]; rfl
  have hlen' : (h.setSize m).1.array.length = m * h.itemSize := by
    rw [harr]
    simp
    omega
  have htake : (h.setSize m).1.array.take (n * h.itemSize) = h.array := by
    rw [harr, List.take_append_of_le_length (by omega), ← hlen, List.take_length]
  refine ⟨hlen', htake, ?_, ?_, ?_, ?_⟩
  · intro j hj1 hj2
    rw [harr, List.get?_append_right (by omega), hlen]
    have hlt : j - n * h.itemSize < m * h.itemSize - h.array.length := by omega
    simp [List.get?_eq_getElem?, List.getElem?_replicate, hlt]
    omega
  · rw [hsetLt (h.setSize m).1 n (by rw [hitem, hlen']; omega)]
    unfold Float32ArrayHelper.shrink
    simp only
    rw [hitem, htake]
  · rw [hsetEq h n (by omega)]
  · rw [hsetEq h n (by omega)]

/-- Concrete instance of C7's theorem. -/
theorem C7_setSize_roundtrip_witness :
    ((⟨2, 2, [5, 6, 7, 8]⟩ : Float32ArrayHelper).setSize 4).1.array.length = 4 * 2 ∧
    ((⟨2, 2, [5, 6, 7, 8]⟩ : Float32ArrayHelper).setSize 4).1.array.take (2 * 2) =
      [5, 6, 7, 8] ∧
    (∀ j, 2 * 2 ≤ j → j < 4 * 2 →
      ((⟨2, 2, [5, 6, 7, 8]⟩ : Float32ArrayHelper).setSize 4).1.array.get? j = some 0) ∧
    (((⟨2, 2, [5, 6, 7, 8]⟩ : Float32ArrayHelper).setSize 4).1.setSize 2).1.array =
      [5, 6, 7, 8] ∧
    ((⟨2, 2, [5, 6, 7, 8]⟩ : Float32ArrayHelper).setSize 2).1 = ⟨2, 2, [5, 6, 7, 8]⟩ ∧
    ((⟨2, 2, [5, 6, 7, 8]⟩ : Float32ArrayHelper).setSize 2).2 = true :=
  C7_setSize_roundtrip ⟨2, 2, [5, 6, 7, 8]⟩ 2 4 (by decide) (by decide) (by decide)

/-- C8: two simulation runs seeded identically and performing the
identical operation sequence (identical group options, emitter options,
membership calls and tick steps) produce identical contents in every
attribute buffer after every corresponding step.  The shared random
source is modelled from the spec (its source file is not under `src/`),
and every other simulation ingredient is explicit state, so runs are
functions of the seed and the operations. -/
theorem C8_seeded_runs_identical (M : MathFns) (s₁ s₂ : ℕ) (go₁ go₂ : GroupOptions)
    (ops₁ ops₂ : List SimOp) (hs : s₁ = s₂) (hg : go₁ = go₂) (ho : ops₁ = ops₂) :
    runSim M s₁ go₁ ops₁ = runSim M s₂ go₂ ops₂ := by
  subst hs; subst hg; subst ho; rfl

/-- Counterexample to C9 as stated.  For opacity value `[1, 4]` (length
2) and spread `[0, 0, 0]` (length 3), the claim predicts the shorter
array is interpolated up to the longer one's length 3; the constructor
instead interpolates both arrays to the fixed keyframe length 4. -/
theorem C9_counterexample :
    (Emitter.init 0 mismatchedVolOpts).opacity.value.length ≠ 3 ∧
    (Emitter.init 0 mismatchedVolOpts).opacity.value = [1, 2, 3, 4] ∧
    (Emitter.init 0 mismatchedVolOpts).opacity.spread = [0, 0, 0, 0] := by
  refine ⟨?_, ?_, ?_⟩ <;> with_unfolding_all decide

/-- C9 (amended): constructing an emitter never fails on mismatched
lifetime-curve value/spread array lengths; both arrays of every
lifetime-curve channel (color, opacity, size, angle) are brought to
exactly the fixed keyframe length `valueOverLifetimeLength` (4) by
linear interpolation, so after construction the channel's value and
spread arrays have equal length. -/
theorem C9_construction_normalizes (uuid : ℕ) (o : EmitterOptions) :
    ((Emitter.init uuid o).color.value.length = valueOverLifetimeLength ∧
      (Emitter.init uuid o).color.spread.length = valueOverLifetimeLength) ∧
    ((Emitter.init uuid o).opacity.value.length = valueOverLifetimeLength ∧
      (Emitter.init uuid o).opacity.spread.length = valueOverLifetimeLength) ∧
    ((Emitter.init uuid o).size.value.length = valueOverLifetimeLength ∧
      (Emitter.init uuid o).size.spread.length = valueOverLifetimeLength) ∧
    ((Emitter.init uuid o).angle.value.length = valueOverLifetimeLength ∧
      (Emitter.init uuid o).angle.spread.length = valueOverLifetimeLength) := by
  refine ⟨?_, ?_, ?_, ?_⟩
  · exact ensureVOLG_length _ _ _ _ _ _
  · exact ensureVOLG_length _ _ _ _ _ _
  · exact ensureVOLG_length _ _ _ _ _ _
  · exact ensureVOLG_length _ _ _ _ _ _

theorem indexOf?_eq_none_of_not_mem (l : List ℕ) (a : ℕ) (h : a ∉ l) :
    l.indexOf? a = none := by
  induction l with
  | nil => rfl
  | cons x xs ih =>
    simp only [List.mem_cons, not_or] at h
    have hx : (x == a) = false := by
      simp [Ne.symm h.1]
    simp [List.indexOf?, List.findIdx?, hx] at ih ⊢
    have := ih h.2
    simp [List.indexOf?] at this
    exact this

/-- C5: misuse of group membership operations is rejected with a
non-fatal diagnostic and leaves all caller-visible state unchanged —
adding a non-emitter value, an emitter already a member of this group,
or an emitter belonging to another group returns the group, the buffers
and the argument unchanged; removing a non-member likewise. -/
theorem C5_misuse_rejected (M : MathFns) (g : EmitterGroup) (rng : Rng) (e : Emitter) :
    (g.addEmitterAny M none rng = (g, none, rng, [.errorNotEmitter])) ∧
    (e.uuid ∈ g.emitterIDs →
      g.addEmitter M e rng = (g, e, rng, [.errorAlreadyInGroup])) ∧
    (e.uuid ∉ g.emitterIDs → e.inGroup = true →
      g.addEmitter M e rng = (g, e, rng, [.errorOtherGroup])) ∧
    (e.uuid ∉ g.emitterIDs → g.removeEmitter e = (g, e, [.errorNotMember])) ∧
    (g.removeEmitterAny none = (g, none, [.errorNotEmitter])) := by
  refine ⟨rfl, ?_, ?_, ?_, rfl⟩
  · intro hmem
    have hc : g.emitterIDs.contains e.uuid = true := by
      simpa using hmem
    unfold EmitterGroup.addEmitter
    rw [if_pos hc]
  · intro hmem hgrp
    have hc : g.emitterIDs.contains e.uuid = false := by
      simpa using hmem
    unfold EmitterGroup.addEmitter
    rw [hc]
    simp [hgrp]
  · intro hmem
    unfold EmitterGroup.removeEmitter
    rw [indexOf?_eq_none_of_not_mem _ _ hmem]

/-- Concrete instance of C5's theorem: a two-member group rejects a
re-add of a member, an add of a foreign-group emitter, and a removal of
a non-member. -/
theorem C5_misuse_rejected_witness :
    (let g0 := (EmitterGroup.init { maxParticleCount := some 4 }).1
     let g : EmitterGroup := { g0 with emitterIDs := [5] }
     let e : Emitter := Emitter.init 5 {}
     g.addEmitter mathFns0 e (Rng.seed 0) = (g, e, Rng.seed 0, [.errorAlreadyInGroup])) ∧
    (let g : EmitterGroup := (EmitterGroup.init { maxParticleCount := some 4 }).1
     let e0 := Emitter.init 6 {}
     let e : Emitter := { e0 with inGroup := true }
     g.addEmitter mathFns0 e (Rng.seed 0) = (g, e, Rng.seed 0, [.errorOtherGroup])) ∧
    (let g : EmitterGroup := (EmitterGroup.init { maxParticleCount := some 4 }).1
     let e : Emitter := Emitter.init 7 {}
     g.removeEmitter e = (g, e, [.errorNotMember])) := by
  refine ⟨?_, ?_, ?_⟩
  · exact (C5_misuse_rejected mathFns0
      { (EmitterGroup.init { maxParticleCount := some 4 }).1 with emitterIDs := [5] }
      (Rng.seed 0) (Emitter.init 5 {})).2.1 (by decide)
  · exact (C5_misuse_rejected mathFns0 (EmitterGroup.init { maxParticleCount := some 4 }).1
      (Rng.seed 0) { Emitter.init 6 {} with inGroup := true }).2.2.1 (by decide) rfl
  · exact (C5_misuse_rejected mathFns0 (EmitterGroup.init { maxParticleCount := some 4 }).1
      (Rng.seed 0) (Emitter.init 7 {})).2.2.2.1 (by decide)

/-- C10: for a non-static emitter whose fractional activation cursor
`activationIndex` lies within its own slot range
`[attributeOffset, attributeOffset + particleCount]` before a tick with
`dt ≥ 0` (and nonnegative emission-rate quantities, as produced by the
constructor: `particlesPerSecond` is a particle count over a lifetime and
`activeMultiplier` a percentage), the cursor still lies within that range
after the tick: it advances by `particlesPerSecond * activeMultiplier * dt`
and is set back to the range start whenever it would pass the range end,
so it never indexes another emitter's slots. -/
theorem C10_cursor_invariant (M : MathFns) (e : Emitter) (A : Attributes) (rng : Rng)
    (dt : ℚ) (hstat : e.isStatic = false) (hdt : 0 ≤ dt)
    (hpps : 0 ≤ e.particlesPerSecond) (hmul : 0 ≤ e.activeMultiplier)
    (hlo : (e.attributeOffset : ℚ) ≤ e.activationIndex)
    (hhi : e.activationIndex ≤ (e.attributeOffset : ℚ) + (e.particleCount : ℚ)) :
    (e.attributeOffset : ℚ) ≤ (Emitter.tick M (e, A, rng) dt).1.activationIndex ∧
    (Emitter.tick M (e, A, rng) dt).1.activationIndex ≤
      (e.attributeOffset : ℚ) + (e.particleCount : ℚ) := by
  rw [Emitter.tick_eq_body M e A rng dt hstat]
  unfold Emitter.tickBody
  dsimp only
  split
  · dsimp only
    rw [Emitter.tickDead_activationIndex, Emitter.checkParticleAges_activationIndex]
    exact ⟨hlo, hhi⟩
  · split
    · dsimp only
      rw [Emitter.tickDead_activationIndex, Emitter.checkParticleAges_activationIndex]
      exact ⟨hlo, hhi⟩
    · unfold Emitter.tickActivate
      dsimp only
      rw [apply_ite Emitter.activationIndex]
      dsimp only
      rw [Emitter.activateParticles_activationIndex,
        Emitter.checkParticleAges_activationIndex]
      dsimp only
      have hpd : 0 ≤ e.particlesPerSecond * e.activeMultiplier * dt :=
        mul_nonneg (mul_nonneg hpps hmul) hdt
      split
      · constructor
        · exact le_refl _
        · have h0 : (0 : ℚ) ≤ (e.particleCount : ℚ) := Nat.cast_nonneg _
          linarith
      · rename_i hno
        push_neg at hno
        push_cast at hno
        constructor
        · linarith
        · linarith

/-- Concrete instance of C10's theorem: one tick of a freshly constructed
emitter keeps the activation cursor inside its slot range. -/
theorem C10_cursor_invariant_witness :
    ((Emitter.init 1 {}).attributeOffset : ℚ) ≤
      (Emitter.tick mathFns0 (Emitter.init 1 {}, Attributes.init, Rng.seed 3)
        (1/10)).1.activationIndex ∧
    (Emitter.tick mathFns0 (Emitter.init 1 {}, Attributes.init, Rng.seed 3)
        (1/10)).1.activationIndex ≤
      ((Emitter.init 1 {}).attributeOffset : ℚ) + ((Emitter.init 1 {}).particleCount : ℚ) :=
  C10_cursor_invariant mathFns0 (Emitter.init 1 {}) Attributes.init (Rng.seed 3) (1/10)
    rfl (by with_unfolding_all decide) (by with_unfolding_all decide)
    (by with_unfolding_all decide) (by with_unfolding_all decide)
    (by with_unfolding_all decide)

/-- C3: for a non-static emitter with finite duration `d`: on a tick that
begins with the emitter alive and its accumulated age above `d`, the alive
flag drops to `false`, the age resets to `0` and the completion-callback
list fires exactly once (the fire counter steps by one); and once dead the
emitter stays dead under any further tick sequence, with no further
callback firing and the age pinned at `0`, until `enable()` intervenes. -/
theorem C3_duration_finish (M : MathFns) (e : Emitter) (A : Attributes) (rng : Rng)
    (d dt : ℚ) (dts : List ℚ)
    (hstat : e.isStatic = false) (hdur : e.duration = some d) :
    (e.alive = true → d < e.age →
      ((Emitter.tick M (e, A, rng) dt).1.alive = false ∧
       (Emitter.tick M (e, A, rng) dt).1.age = 0 ∧
       (Emitter.tick M (e, A, rng) dt).1.finishFireCount = e.finishFireCount + 1)) ∧
    (e.alive = false →
      ((tickSeq M (e, A, rng) dts).1.alive = false ∧
       (tickSeq M (e, A, rng) dts).1.finishFireCount = e.finishFireCount ∧
       (dts ≠ [] → (tickSeq M (e, A, rng) dts).1.age = 0))) := by
  constructor
  · intro hal hage
    rw [Emitter.tick_eq_body M e A rng dt hstat]
    unfold Emitter.tickBody
    dsimp only
    have hal2 : (Emitter.checkParticleAges { e with paramsInit := true } A e.attributeOffset
        (e.attributeOffset + e.particleCount) dt).1.alive = true := by
      rw [Emitter.checkParticleAges_alive]
      exact hal
    rw [if_neg (by simp [hal2])]
    have hdur2 : (Emitter.checkParticleAges { e with paramsInit := true } A e.attributeOffset
        (e.attributeOffset + e.particleCount) dt).1.durationExceeded = true := by
      unfold Emitter.durationExceeded
      rw [Emitter.checkParticleAges_duration]
      rw [show ({ e with paramsInit := true } : Emitter).duration = e.duration from rfl, hdur]
      dsimp only
      rw [Emitter.checkParticleAges_age]
      exact decide_eq_true hage
    rw [if_pos hdur2]
    dsimp only
    unfold Emitter.tickDead
    rw [if_neg (by simp [hal2])]
    refine ⟨rfl, rfl, ?_⟩
    dsimp only
    rw [Emitter.checkParticleAges_finishFireCount]
  · intro hal
    obtain ⟨g1, g2, g3, g4⟩ := Emitter.tickSeq_dead M dts e A rng hstat hal
    refine ⟨g1, g3, ?_⟩
    intro hne
    rw [g4, if_neg (by simpa using hne)]

/-- Concrete instance of C3's theorem: an aged-out emitter dies with one
callback fire on the next tick, and a dead emitter stays dead with no
further fires across two more ticks. -/
theorem C3_duration_finish_witness :
    ((Emitter.tick mathFns0 ({ Emitter.init 2 { duration := some (1/2) } with age := 1 },
        Attributes.init, Rng.seed 5) (3/10)).1.alive = false ∧
     (Emitter.tick mathFns0 ({ Emitter.init 2 { duration := some (1/2) } with age := 1 },
        Attributes.init, Rng.seed 5) (3/10)).1.age = 0 ∧
     (Emitter.tick mathFns0 ({ Emitter.init 2 { duration := some (1/2) } with age := 1 },
        Attributes.init, Rng.seed 5) (3/10)).1.finishFireCount =
       ({ Emitter.init 2 { duration := some (1/2) } with age := 1 } : Emitter).finishFireCount
         + 1) ∧
    ((tickSeq mathFns0 ({ Emitter.init 3 { duration := some (1/2) } with alive := false },
        Attributes.init, Rng.seed 5) [3/10, 3/10]).1.alive = false ∧
     (tickSeq mathFns0 ({ Emitter.init 3 { duration := some (1/2) } with alive := false },
        Attributes.init, Rng.seed 5) [3/10, 3/10]).1.finishFireCount =
       ({ Emitter.init 3 { duration := some (1/2) } with alive := false } :
         Emitter).finishFireCount ∧
     (tickSeq mathFns0 ({ Emitter.init 3 { duration := some (1/2) } with alive := false },
        Attributes.init, Rng.seed 5) [3/10, 3/10]).1.age = 0) := by
  constructor
  · exact (C3_duration_finish mathFns0
      { Emitter.init 2 { duration := some (1/2) } with age := 1 } Attributes.init
      (Rng.seed 5) (1/2) (3/10) [] rfl rfl).1 rfl (by with_unfolding_all decide)
  · obtain ⟨h1, h2, h3⟩ := (C3_duration_finish mathFns0
      { Emitter.init 3 { duration := some (1/2) } with alive := false } Attributes.init
      (Rng.seed 5) (1/2) (3/10) [3/10, 3/10] rfl rfl).2 rfl
    exact ⟨h1, h2, h3 (by simp)⟩

set_option maxRecDepth 400000 in
/-- C2 counterexample: on a group declared with `maxParticleCount = 10`,
adding emitters of 5 + 5 + 1 particles emits the capacity warning and the
count reports 11, but the buffers do not grow to hold the new total: the
params buffer stays at 10 slots (40 components, not 44) and every
component of the 11th slot reads back `undefined`, so the claim's "the
per-slot data beyond the declared capacity is actually stored" is false. -/
theorem C2_counterexample :
    (let g0 := (EmitterGroup.init { maxParticleCount := some 10 }).1
     let r1 := g0.addEmitter mathFns0 (Emitter.init 1 { particleCount := some 5 }) (Rng.seed 7)
     let r2 := r1.1.addEmitter mathFns0 (Emitter.init 2 { particleCount := some 5 }) r1.2.2.1
     let r3 := r2.1.addEmitter mathFns0 (Emitter.init 3 { particleCount := some 1 }) r2.2.2.1
     r3.2.2.2 = [Diag.warnMaxExceeded] ∧
     r3.1.particleCount = 11 ∧
     (r3.1.attributes.get .params).getLength = 40 ∧
     ¬ (r3.1.attributes.get .params).getLength = 11 * 4 ∧
     jsRead (r3.1.attributes.get .params).rawArray (40 : ℚ) = none ∧
     jsRead (r3.1.attributes.get .params).rawArray (41 : ℚ) = none) := by
  with_unfolding_all decide

/-- C2 (amended): adding an emitter to a fresh group whose declared
`maxParticleCount` is `C` with more than `C` particles emits the capacity
warning and still proceeds — the emitter becomes a member and the group's
total particle count includes its particles — but the attribute buffers
are allocated for only `C` slots (each buffer holds `C * itemSize`
components), so the per-slot data for the slots at or beyond `C` is
dropped by the typed arrays and reads back `undefined`. -/
theorem C2_capacity_capped (M : MathFns) (g : EmitterGroup) (e : Emitter) (rng : Rng) (C : ℕ)
    (h1 : g.maxParticleCount = some C) (h2 : g.particleCount = 0)
    (h3 : g.emitterIDs = []) (h4 : g.attributes = Attributes.init)
    (hover : C < e.particleCount) (hgrp : e.inGroup = false) :
    (g.addEmitter M e rng).2.2.2 = [Diag.warnMaxExceeded] ∧
    (g.addEmitter M e rng).1.emitterIDs = [e.uuid] ∧
    (g.addEmitter M e rng).1.particleCount = e.particleCount ∧
    (∀ k, ((g.addEmitter M e rng).1.attributes.get k).getLength = C * k.itemSize) ∧
    (∀ k (n : ℕ), C * k.itemSize ≤ n →
      jsRead ((g.addEmitter M e rng).1.attributes.get k).rawArray (n : ℚ) = none) := by
  have hguard : g.addEmitter M e rng = g.addEmitterChecked M e rng := by
    unfold EmitterGroup.addEmitter
    rw [h3]
    rw [if_neg (by simp), if_neg (by simp [hgrp])]
  rw [hguard]
  have hlen : ∀ k, ((g.addEmitterChecked M e rng).1.attributes.get k).getLength =
      C * k.itemSize := by
    intro k
    unfold EmitterGroup.addEmitterChecked
    dsimp only
    rw [EmitterGroup.updateDefines_attributes]
    dsimp only
    rw [EmitterGroup.applyAttributesToGeometry_getLength,
      EmitterGroup.assignFold_getLength, EmitterGroup.createFold_get, h4,
      ShaderAttribute.createBufferAttribute_none_getLength _ _
        (Attributes.init_get_typedArray k),
      Attributes.init_get_itemSize, h1]
    rfl
  refine ⟨?_, ?_, ?_, hlen, ?_⟩
  · unfold EmitterGroup.addEmitterChecked
    dsimp only
    rw [h1, h2]
    dsimp only
    rw [if_pos (by simp only [decide_eq_true_eq]; omega)]
  · unfold EmitterGroup.addEmitterChecked
    dsimp only
    rw [EmitterGroup.updateDefines_emitterIDs]
    dsimp only
    rw [h3]
    dsimp only [Emitter.setAttributeOffset, Emitter.setBufferUpdateRanges]
    simp [Emitter.calculatePPSValue_uuid]
  · unfold EmitterGroup.addEmitterChecked
    dsimp only
    rw [EmitterGroup.updateDefines_particleCount]
    dsimp only
    rw [h2]
    omega
  · intro k n hn
    exact ShaderAttribute.read_oob _ _ (by rw [hlen k]; exact hn)

/-- Concrete instance of C2's amended theorem: a 3-particle emitter on a
fresh group with a declared maximum of 2. -/
theorem C2_capacity_capped_witness :
    (((EmitterGroup.init { maxParticleCount := some 2 }).1.addEmitter mathFns0
        (Emitter.init 9 { particleCount := some 3 }) (Rng.seed 1)).2.2.2 =
      [Diag.warnMaxExceeded]) ∧
    (((EmitterGroup.init { maxParticleCount := some 2 }).1.addEmitter mathFns0
        (Emitter.init 9 { particleCount := some 3 }) (Rng.seed 1)).1.emitterIDs =
      [(Emitter.init 9 { particleCount := some 3 }).uuid]) ∧
    (((EmitterGroup.init { maxParticleCount := some 2 }).1.addEmitter mathFns0
        (Emitter.init 9 { particleCount := some 3 }) (Rng.seed 1)).1.particleCount =
      (Emitter.init 9 { particleCount := some 3 }).particleCount) ∧
    (∀ k, ((((EmitterGroup.init { maxParticleCount := some 2 }).1.addEmitter mathFns0
        (Emitter.init 9 { particleCount := some 3 }) (Rng.seed 1)).1.attributes.get
          k).getLength = 2 * k.itemSize)) ∧
    (∀ k (n : ℕ), 2 * k.itemSize ≤ n →
      jsRead (((EmitterGroup.init { maxParticleCount := some 2 }).1.addEmitter mathFns0
        (Emitter.init 9 { particleCount := some 3 }) (Rng.seed 1)).1.attributes.get
          k).rawArray (n : ℚ) = none) :=
  C2_capacity_capped mathFns0 (EmitterGroup.init { maxParticleCount := some 2 }).1
    (Emitter.init 9 { particleCount := some 3 }) (Rng.seed 1) 2
    rfl rfl rfl rfl (by with_unfolding_all decide) rfl

set_option maxRecDepth 400000 in
/-- C4 counterexample: on a two-emitter group (5 + 5 slots on a capacity-10
group), removing the first emitter immediately zeroes params alive/age and
reports count 5, but the remaining emitter's slots are NOT unaffected in
content: its recorded slot range is [5, 10), and the position value
readable at that range's first component changes from a stored value to
`undefined`, because every non-params buffer is spliced (compacted to the
front) while the remaining emitter's recorded offset stays 5. -/
theorem C4_counterexample :
    (let g0 := (EmitterGroup.init { maxParticleCount := some 10 }).1
     let r1 := g0.addEmitter mathFns0 (Emitter.init 1 { particleCount := some 5 }) (Rng.seed 7)
     let r2 := r1.1.addEmitter mathFns0 (Emitter.init 2 { particleCount := some 5 }) r1.2.2.1
     let gB := r2.1
     let em0 := gB.emitters.getD 0 (Emitter.init 0 {})
     let em1 := gB.emitters.getD 1 (Emitter.init 0 {})
     let gA := (gB.removeEmitter em0).1
     gA.particleCount = 5 ∧
     gA.emitters = [em1] ∧
     jsRead (gA.attributes.get .params).rawArray (0 : ℚ) = some 0 ∧
     jsRead (gA.attributes.get .params).rawArray (1 : ℚ) = some 0 ∧
     em1.attributeOffset = 5 ∧
     jsRead (gB.attributes.get .position).rawArray (15 : ℚ) = some 0 ∧
     jsRead (gA.attributes.get .position).rawArray (15 : ℚ) = none ∧
     ¬ jsRead (gA.attributes.get .position).rawArray (15 : ℚ) =
         jsRead (gB.attributes.get .position).rawArray (15 : ℚ)) := by
  with_unfolding_all decide

/-- C4 (amended): removing the first of two member emitters works
immediately (no tick required): the group's particle count drops by the
removed emitter's count, the member lists keep only the second emitter
(itself unchanged, including its recorded slot offset), the removed
emitter is detached with no diagnostic, and both alive and age components
of every slot in the removed range are zeroed in the params buffer; but
the buffers do not keep the remaining emitter's contents in place — the
params buffer is not compacted at all, while every other buffer has the
removed range spliced out, shifting the remaining emitter's components to
the front (its stale recorded offset then points past them). -/
theorem C4_remove_first (g : EmitterGroup) (e1 e2 : Emitter)
    (hems : g.emitters = [e1, e2]) (hids : g.emitterIDs = [e1.uuid, e2.uuid])
    (hoff : e1.attributeOffset = 0)
    (hcnt : e1.particleCount ≤ g.particleCount)
    (hplen : (g.attributes.get .params).rawArray.length = 4 * g.particleCount)
    (hbuf : ∀ k : AttrKey,
      (g.attributes.get k).typedArray.map Float32ArrayHelper.itemSize = some k.itemSize) :
    (g.removeEmitter e1).1.particleCount = g.particleCount - e1.particleCount ∧
    (g.removeEmitter e1).1.emitters = [e2] ∧
    (g.removeEmitter e1).1.emitterIDs = [e2.uuid] ∧
    (g.removeEmitter e1).2.2 = [] ∧
    (g.removeEmitter e1).2.1.inGroup = false ∧
    (∀ i : ℕ, i < e1.particleCount →
      jsRead ((g.removeEmitter e1).1.attributes.get .params).rawArray ((4 * i : ℕ) : ℚ)
        = some 0 ∧
      jsRead ((g.removeEmitter e1).1.attributes.get .params).rawArray ((4 * i + 1 : ℕ) : ℚ)
        = some 0) ∧
    ((g.removeEmitter e1).1.attributes.get .params).rawArray.length =
      (g.attributes.get .params).rawArray.length ∧
    (∀ k : AttrKey, ¬ k = .params →
      ((g.removeEmitter e1).1.attributes.get k).rawArray =
        (g.attributes.get k).rawArray.drop (e1.particleCount * k.itemSize)) := by
  have hidx : g.emitterIDs.indexOf? e1.uuid = some 0 := by
    rw [hids]
    simp [List.indexOf?, List.findIdx?]
  unfold EmitterGroup.removeEmitter
  rw [hidx]
  dsimp only
  rw [hoff]
  refine ⟨rfl, ?_, ?_, rfl, rfl, ?_, ?_, ?_⟩
  · rw [hems]
    rfl
  · rw [hids]
    rfl
  · intro i hi
    constructor
    · rw [jsRead_nat, EmitterGroup.spliceFold_get, if_pos rfl,
        EmitterGroup.zeroParamsRange_get_params_get?, if_pos (by omega)]
    · rw [jsRead_nat, EmitterGroup.spliceFold_get, if_pos rfl,
        EmitterGroup.zeroParamsRange_get_params_get?, if_pos (by omega)]
  · rw [EmitterGroup.spliceFold_get, if_pos rfl,
      EmitterGroup.zeroParamsRange_get_params_length]
  · intro k hk
    rw [EmitterGroup.spliceFold_get, if_neg hk,
      EmitterGroup.zeroParamsRange_get_other g.attributes 0 (0 + e1.particleCount) k hk,
      ShaderAttribute.splice_rawArray _ 0 (0 + e1.particleCount) k.itemSize (hbuf k)
        (Nat.zero_le _)]
    simp

set_option maxRecDepth 400000 in
/-- Concrete instance of C4's amended theorem: a 5 + 5 group on capacity
10 removing its first member. -/
theorem C4_remove_first_witness :
    (let g0 := (EmitterGroup.init { maxParticleCount := some 10 }).1
     let r1 := g0.addEmitter mathFns0 (Emitter.init 1 { particleCount := some 5 }) (Rng.seed 7)
     let r2 := r1.1.addEmitter mathFns0 (Emitter.init 2 { particleCount := some 5 }) r1.2.2.1
     let gB := r2.1
     let em0 := gB.emitters.getD 0 (Emitter.init 0 {})
     let em1 := gB.emitters.getD 1 (Emitter.init 0 {})
     (gB.removeEmitter em0).1.particleCount = gB.particleCount - em0.particleCount ∧
     (gB.removeEmitter em0).1.emitters = [em1] ∧
     (gB.removeEmitter em0).1.emitterIDs = [em1.uuid] ∧
     (gB.removeEmitter em0).2.2 = [] ∧
     (gB.removeEmitter em0).2.1.inGroup = false ∧
     (∀ i : ℕ, i < em0.particleCount →
       jsRead ((gB.removeEmitter em0).1.attributes.get .params).rawArray ((4 * i : ℕ) : ℚ)
         = some 0 ∧
       jsRead ((gB.removeEmitter em0).1.attributes.get .params).rawArray
         ((4 * i + 1 : ℕ) : ℚ) = some 0) ∧
     ((gB.removeEmitter em0).1.attributes.get .params).rawArray.length =
       (gB.attributes.get .params).rawArray.length ∧
     (∀ k : AttrKey, ¬ k = .params →
       ((gB.removeEmitter em0).1.attributes.get k).rawArray =
         (gB.attributes.get k).rawArray.drop (em0.particleCount * k.itemSize))) := by
  exact C4_remove_first _ _ _ (by with_unfolding_all decide) (by with_unfolding_all decide)
    (by with_unfolding_all decide) (by with_unfolding_all decide)
    (by with_unfolding_all decide) (by intro k; cases k <;> with_unfolding_all decide)

/-- Concrete instance of C8's theorem. -/
theorem C8_seeded_runs_identical_witness :
    runSim mathFns0 12 { maxParticleCount := some 4 }
        [SimOp.add { particleCount := some 2 }, SimOp.tickOp (some (1/10))] =
      runSim mathFns0 12 { maxParticleCount := some 4 }
        [SimOp.add { particleCount := some 2 }, SimOp.tickOp (some (1/10))] :=
  C8_seeded_runs_identical mathFns0 12 12 _ _ _ _ rfl rfl rfl

end PS
